import Mathlib

/-!
# Verification of the gm-quic reliability core

A shallow embedding of the QUIC endpoint core of this repository:

* `Space` — the per-epoch reliability engine (qrecovery/src/space.rs):
  ACK generation, ACK processing, loss detection, retransmission queueing.
* `Parameters` / `ArcParameters` — the transport-parameter registry and
  connection-ID authentication (qbase/src/param.rs).
* the Data-scope 0-RTT frame dispatcher (qconnection/src/connection/scope/data.rs).

Machine integers (`u64`, `usize`) are modelled as `Nat`; none of the verified
paths exercises wrap-around.  `Instant` and `Duration` are modelled as `Nat`
microsecond counts, and every function of the source that reads the clock
(`Instant::now()`, `Instant::elapsed`) takes the current instant `now`
explicitly.  Panicking paths (`unwrap`, `expect`, `assert!`, `todo!`,
debug asserts) are modelled by `Option`/`none` results.  Generic parameters
`F` (control frames) and `D` (data frames) of `Space` are instantiated with
a control frame carrying an abstract identity plus its encoded size, and a
`Nat` identity, respectively; the `Transmit` collaborator `T` is modelled as
an event log so that `confirm` / `confirm_data` / `may_loss` / `recv_*`
notifications are observable.
-/

/-- `PACKET_THRESHOLD` (qrecovery/src/space.rs). -/
def PACKET_THRESHOLD : Nat := 3

/-- `VARINT_MAX` (qbase/src/varint.rs is not under src/; the spec fixes
variable-length integers to at most `2^62 - 1`, per RFC 9000 §16). -/
def VARINT_MAX : Nat := 2 ^ 62 - 1

/-- `State` of a received packet-number slot (qrecovery/src/space.rs). -/
inductive RcvdState where
  | NotReceived
  | Unreached
  | Ignored (t : Nat)
  | Important (t : Nat)
  | Synced (t : Nat)
deriving DecidableEq, Repr

namespace RcvdState

/-- `State::rcvd(t, is_ack_eliciting)`. -/
def rcvd (t : Nat) (is_ack_eliciting : Bool) : RcvdState :=
  if is_ack_eliciting then .Important t else .Ignored t

/-- `State::delay`: `t.elapsed()` at current instant `now`. -/
def delay (now : Nat) : RcvdState → Option Nat
  | .Ignored t | .Important t | .Synced t => some (now - t)
  | _ => none

/-- `State::into_synced`. -/
def into_synced : RcvdState → RcvdState
  | .Ignored t | .Important t => .Synced t
  | .NotReceived => .Unreached
  | s => s

def isNotReceived : RcvdState → Bool
  | .NotReceived => true
  | _ => false

def isImportant : RcvdState → Bool
  | .Important _ => true
  | _ => false

end RcvdState

/-- The generic control-frame parameter `F` of `Space`, instantiated with an
abstract identity plus its encoded byte length (the wire encoding lives in
qbase, outside the verified core; only the length is observable through
`BufMut::remaining_mut`). -/
structure CtrlFrame where
  tag : Nat
  wire_size : Nat
deriving DecidableEq, Repr

/-- `Records<F, D>` (qrecovery/src/space.rs): the per-packet payload record.
`AckRecord` holds the largest packet number of the sent ACK frame, which is
what `Space::confirm` reads back (`ack.0`). -/
inductive Records where
  | Frame (f : CtrlFrame)
  | Data (d : Nat)
  | Ack (largest : Nat)
deriving DecidableEq, Repr

/-- `Packet<F, D>` (qrecovery/src/space.rs). -/
structure SentPacket where
  send_time : Nat
  payload : List Records
  sent_bytes : Nat
  is_ack_eliciting : Bool
deriving DecidableEq, Repr

/-- Modelled from the spec: `IndexDeque` (qrecovery/src/index_deque.rs is not
under src/) — a deque indexed by absolute packet number, "ordered, sparse by
packet number", whose leftmost retained index is `offset`. -/
structure IndexDeque (α : Type) where
  offset : Nat
  items : List α
deriving DecidableEq, Repr

namespace IndexDeque

/-- `IndexDeque::get`: `none` below the window or beyond the right end. -/
def get (d : IndexDeque α) (i : Nat) : Option α :=
  if i < d.offset then none else d.items.get? (i - d.offset)

/-- `IndexDeque::len`. -/
def len (d : IndexDeque α) : Nat := d.items.length

/-- Modelled from the spec: `IndexDeque::drain_to(n)` slides the window
forward so that the leftmost retained index is `n`, returning the removed
entries ("drain rcvd_packets up to `largest_in_frame − disorder_tolerance`",
spec §4.1); indices `≥ n` are untouched, and a target at or below the current
offset removes nothing. -/
def drainTo (d : IndexDeque α) (n : Nat) : List α × IndexDeque α :=
  let k := min (n - d.offset) d.items.length
  (d.items.take k, ⟨d.offset + k, d.items.drop k⟩)

/-- `IndexDeque::drain(..k)` as used for the leading-`None` compaction:
drop the first `k` entries and advance the offset. -/
def dropFront (d : IndexDeque α) (k : Nat) : IndexDeque α :=
  ⟨d.offset + k, d.items.drop k⟩

/-- `IndexDeque::push`, `none` once the next index would exceed
`VARINT_MAX` ("exceeding VARINT_MAX packet numbers is fatal", spec §4.1). -/
def push (d : IndexDeque α) (v : α) : Option (Nat × IndexDeque α) :=
  if d.offset + d.items.length ≤ VARINT_MAX then
    some (d.offset + d.items.length, ⟨d.offset, d.items ++ [v]⟩)
  else none

/-- Overwrite the slot at absolute index `i` (callers only use it on indices
obtained from a successful `get`). -/
def setAt (d : IndexDeque α) (i : Nat) (v : α) : IndexDeque α :=
  ⟨d.offset, d.items.set (i - d.offset) v⟩

/-- Modelled from the spec: `IndexDeque::insert` for `rcvd_packets` — write
the state at absolute index `i`, extending the right end with the default
`NotReceived` state for any skipped packet numbers. -/
def insertExtend (d : IndexDeque RcvdState) (i : Nat) (v : RcvdState) :
    IndexDeque RcvdState :=
  if i < d.offset then d
  else if i - d.offset < d.items.length then
    ⟨d.offset, d.items.set (i - d.offset) v⟩
  else
    ⟨d.offset,
      d.items ++ List.replicate (i - d.offset - d.items.length) .NotReceived ++ [v]⟩

/-- `IndexDeque::iter_with_idx`: entries paired with their absolute index. -/
def withIdx (d : IndexDeque α) : List (Nat × α) :=
  d.items.enum.map (fun p => (d.offset + p.1, p.2))

end IndexDeque

/-- `AckFrame` (qbase::frame).  ECN counts are not modelled: the only handling
of a received ECN block in the verified core is an unimplemented
`todo!("处理ECN信息")` panic (qrecovery/src/space.rs, `recv_ack_frame`), and
`gen_ack_frame` always emits `ecn: None`. -/
structure AckFrame where
  largest : Nat
  delay : Nat
  first_range : Nat
  ranges : List (Nat × Nat)
deriving DecidableEq, Repr

/-- The inclusive packet-number range `lo ..= hi`, in ascending order. -/
def pnRange (lo hi : Nat) : List Nat :=
  (List.range (hi + 1 - lo)).map (lo + ·)

/-- Modelled from the spec: `AckFrame` range iteration (`ack.into_iter()`,
qbase::frame, not under src/), per the spec's wire grammar (standard QUIC
frames, RFC 9000 §19.3.1): the first range acknowledges
`largest - first_range ..= largest`; each following `(gap, len)` entry
acknowledges `hi - len ..= hi` where `hi = previous smallest - gap - 2`. -/
def AckFrame.pns (af : AckFrame) : List Nat :=
  pnRange (af.largest - af.first_range) af.largest ++
    go (af.largest - af.first_range) af.ranges
where
  go (smallest : Nat) : List (Nat × Nat) → List Nat
    | [] => []
    | (gap, len) :: rest =>
      let hi := smallest - gap - 2
      pnRange (hi - len) hi ++ go (hi - len) rest

/-- `kGranularity` (qrecovery/src/rtt.rs is not under src/; the spec's
loss-delay formula uses the RFC 9002 timer granularity, 1 ms), in µs. -/
def kGranularity : Nat := 1000

/-- Modelled from the spec: `Rtt` (qrecovery/src/rtt.rs is not under src/).
Only the two samples that feed the spec's loss-delay formula are kept. -/
structure Rtt where
  smoothed_rtt : Nat
  latest_rtt : Nat
deriving DecidableEq, Repr

/-- Modelled from the spec: `loss_delay = max(9/8 × max(SRTT, latest_rtt),
kGranularity)` (spec §4.1, ACK processing). -/
def Rtt.loss_delay (r : Rtt) : Nat :=
  max (9 * max r.smoothed_rtt r.latest_rtt / 8) kGranularity

/-- Modelled from the spec: `rtt.update(send_elapsed, ack_delay_scaled,
is_handshake_confirmed)` (spec §4.1) — the spec gives only the call shape;
the sample is recorded as the latest RTT.  The single call site in
`recv_ack_frame` is unreachable (the largest acknowledged packet is always
taken while iterating the ACK ranges, emptying its slot first), so no claim
depends on this body. -/
def Rtt.update (r : Rtt) (sample _ackDelay : Nat) (_handshakeConfirmed : Bool) :
    Rtt :=
  { r with latest_rtt := sample }

/-- `ErrorKind` (qbase::error), restricted to the kinds the verified core
raises. -/
inductive ErrorKind where
  | TransportParameter
  | ProtocolViolation
  | FrameEncoding
deriving DecidableEq, Repr

/-- `FrameType` (qbase::frame), restricted to the frame types the verified
core names in errors. -/
inductive FrameType where
  | Padding
  | Ack
  | Crypto
  | NewToken
  | HandshakeDone
  | PathResponse
  | RetireConnectionId
  | Stream
  | Datagram
deriving DecidableEq, Repr

/-- `Error` (qbase::error): `(ErrorKind, FrameType, reason)`. -/
structure QuicError where
  kind : ErrorKind
  frame_type : FrameType
  reason : String
deriving DecidableEq, Repr

/-- The notifications a `Space` sends its `Transmit` collaborator `T`
(`confirm` / `confirm_data` / `may_loss` / `recv_frame` / `recv_data` /
`recv_close`), recorded as an event log. -/
inductive TransmitEvent where
  | confirm (f : CtrlFrame)
  | confirmData (d : Nat)
  | mayLoss (d : Nat)
  | recvFrame (f : CtrlFrame)
  | recvData (d : Nat)
  | recvClose
deriving DecidableEq, Repr

/-- `Frame` as dispatched by `Space::receive` (qrecovery/src/space.rs):
`Padding`, `Ack`, `Close`, `Data(frame, data)` and `Info(frame)`.  Frames
arrive already parsed: `parse_frames_from_bytes` (qbase::frame::ext) is byte
decoding outside the verified core, and the `try_into` conversions of the
generic instantiation cannot fail. -/
inductive SpaceFrame where
  | padding
  | ack (af : AckFrame)
  | close
  | data (d : Nat)
  | info (f : CtrlFrame)
deriving DecidableEq, Repr

/-- `Space<F, D, T, R>` (qrecovery/src/space.rs).  The const generic `R`
becomes the field `reliable`; the `Transmit` collaborator is the event log
`transmission`. -/
structure Space where
  frames : List CtrlFrame
  inflight_packets : IndexDeque (Option SentPacket)
  disorder_tolerance : Nat
  time_of_last_sent_ack_eliciting_packet : Option Nat
  largest_acked_pktid : Nat
  loss_time : Option Nat
  rcvd_packets : IndexDeque RcvdState
  largest_rcvd_ack_eliciting_pktid : Nat
  last_synced_ack_largest : Nat
  new_lost_event : Bool
  rcvd_unreached_packet : Bool
  time_to_sync : Option Nat
  max_ack_delay : Nat
  transmission : List TransmitEvent
  reliable : Bool
deriving DecidableEq, Repr

namespace Space

/-- Append a notification to the `Transmit` collaborator's log. -/
def logEvent (s : Space) (e : TransmitEvent) : Space :=
  { s with transmission := s.transmission ++ [e] }

/-- `Space::write_frame`. -/
def write_frame (s : Space) (f : CtrlFrame) : Space :=
  { s with frames := s.frames ++ [f] }

/-- `Space::confirm`: replay a confirmed packet's records — an `Ack` record
slides `rcvd_packets` up to `largest − disorder_tolerance`, `Frame` and
`Data` records notify the collaborator. -/
def confirm (s : Space) (payload : List Records) : Space :=
  payload.foldl
    (fun s r =>
      match r with
      | .Ack l =>
        { s with rcvd_packets := (s.rcvd_packets.drainTo (l - s.disorder_tolerance)).2 }
      | .Frame f => s.logEvent (.confirm f)
      | .Data d => s.logEvent (.confirmData d))
    s

/-- `Space::need_send_ack_frame`.  Note the comparison direction taken from
the source: with `time_to_sync` armed the method returns `true` while `now`
is still strictly BEFORE the deadline (`t > Instant::now()`), and `false`
once the deadline has passed. -/
def need_send_ack_frame (s : Space) (now : Nat) : Bool :=
  if !s.reliable then false
  else if s.new_lost_event || s.rcvd_unreached_packet then true
  else
    match s.time_to_sync with
    | some t => decide (t > now)
    | none => false

end Space

/-- The `ranges` loop of `gen_ack_frame`, traced on the reversed receive
record.  Rust's `Iterator::take_while` consumes the first failing element,
so each loop iteration consumes: one element by the leading `next()`, the
run counted into `gap`, the element that ended that run, one element by the
second `next()`, the run counted into `acked`, and the element that ended
it.  `fuel` bounds the recursion by the iterator length. -/
def ackRangesAux : Nat → List RcvdState → List (Nat × Nat)
  | 0, _ => []
  | _, [] => []
  | fuel + 1, _ :: l₁ =>
    let gap := (l₁.takeWhile (·.isNotReceived)).length
    match l₁.drop (gap + 1) with
    | [] => []
    | _ :: l₃ =>
      let acked := (l₃.takeWhile (fun st => !st.isNotReceived)).length
      (gap, acked) :: ackRangesAux fuel (l₃.drop (acked + 1))

namespace Space

/-- `Space::gen_ack_frame` at instant `now`: `none` models the panics — the
`assert!(R)` on an unreliable space, the debug assert that an `Important`
entry exists, and the `unwrap`s on an empty receive record or on a largest
entry with no timestamp.  Returns the frame together with the space whose
first (rightmost) run of received entries has been promoted by
`into_synced` while being counted — the `gap`/`acked` runs are only
counted, not promoted. -/
def gen_ack_frame (s : Space) (now : Nat) : Option (AckFrame × Space) :=
  if !s.reliable then none
  else if !(s.rcvd_packets.items.any (·.isImportant)) then none
  else
    match s.rcvd_packets.items.getLast? with
    | none => none
    | some lastSt =>
      match lastSt.delay now with
      | none => none
      | some delay =>
        let largest := s.rcvd_packets.offset + s.rcvd_packets.items.length - 1
        let r := s.rcvd_packets.items.reverse
        let run1 := r.takeWhile (fun st => !st.isNotReceived)
        let first_range := run1.length - 1
        let it := r.drop (run1.length + 1)
        let ranges := ackRangesAux it.length it
        let items' := ((run1.map RcvdState.into_synced) ++ r.drop run1.length).reverse
        some
          ({ largest := largest, delay := delay, first_range := first_range,
             ranges := ranges },
           { s with rcvd_packets := ⟨s.rcvd_packets.offset, items'⟩ })

/-- One step of the ACK-range loop of `recv_ack_frame`: take the inflight
record of `pn` if still present, confirm its payload, and accumulate the
`no_newly_acked` / `includes_ack_eliciting` / `acked_bytes` locals. -/
def ackStep (acc : Space × Bool × Bool × Nat) (pn : Nat) :
    Space × Bool × Bool × Nat :=
  let (s, _noNew, incAE, bytes) := acc
  match s.inflight_packets.get pn with
  | some (some pkt) =>
    let s := { s with inflight_packets := s.inflight_packets.setAt pn none }
    (s.confirm pkt.payload, false, incAE || pkt.is_ack_eliciting,
      bytes + pkt.sent_bytes)
  | _ => acc

/-- Requeue the records of a lost packet: `Ack` records need no resend,
`Frame` records re-enter the control queue, `Data` records notify
`may_loss`. -/
def lossRecord (s : Space) (r : Records) : Space :=
  match r with
  | .Ack _ => s
  | .Frame f => { s with frames := s.frames ++ [f] }
  | .Data d => s.logEvent (.mayLoss d)

/-- The time-threshold pass of `recv_ack_frame`: inspect the first
`PACKET_THRESHOLD` slots still in the deque; a packet sent at or before
`lostSendTime` is taken and requeued, a survivor pushes
`send_time + lossDelay` into `loss_time`. -/
def lossPass (s : Space) (lostSendTime lossDelay : Nat) : Space :=
  (List.range PACKET_THRESHOLD).foldl
    (fun s i =>
      match s.inflight_packets.items.get? i with
      | some (some pkt) =>
        if pkt.send_time ≤ lostSendTime then
          let s := pkt.payload.foldl lossRecord s
          { s with inflight_packets :=
              ⟨s.inflight_packets.offset, s.inflight_packets.items.set i none⟩ }
        else
          let lt := match s.loss_time with
            | some t => min t (pkt.send_time + lossDelay)
            | none => pkt.send_time + lossDelay
          { s with loss_time := some lt }
      | _ => s)
    s

/-- The fold step over the entries removed by the fast-retransmit
`drain_to`: unacknowledged packets requeue their records and count into
`acked_bytes`. -/
def lostStep (acc : Space × Nat) (slot : Option SentPacket) : Space × Nat :=
  match slot with
  | none => acc
  | some pkt => (pkt.payload.foldl lossRecord acc.1, acc.2 + pkt.sent_bytes)

/-- The tail of `recv_ack_frame` once something new was acknowledged: the
(unreachable) RTT-sampling block for the largest acknowledged packet, the
`PACKET_THRESHOLD` drain, the time-threshold pass, and the leading-`None`
compaction. -/
def recvAckTail (s : Space) (largestAcked ackDelay : Nat) (rtt : Rtt)
    (now : Nat) (incAE : Bool) (bytes : Nat) : Space × Rtt × Option Nat :=
  let (s, rtt, bytes) :=
    match s.inflight_packets.get largestAcked with
    | some (some pkt) =>
      let s := { s with inflight_packets := s.inflight_packets.setAt largestAcked none }
      let incAE := incAE || pkt.is_ack_eliciting
      let rtt := if incAE then rtt.update (now - pkt.send_time) ackDelay true else rtt
      (s.confirm pkt.payload, rtt, bytes + pkt.sent_bytes)
    | _ => (s, rtt, bytes)
  let (lost, infl) := s.inflight_packets.drainTo (largestAcked - PACKET_THRESHOLD)
  let s := { s with inflight_packets := infl }
  let (s, bytes) := lost.foldl lostStep (s, bytes)
  let lossDelay := rtt.loss_delay
  let lostSendTime := now - lossDelay
  let s := { s with loss_time := none }
  let s := s.lossPass lostSendTime lossDelay
  let k := (s.inflight_packets.items.takeWhile (·.isNone)).length
  let s := { s with inflight_packets := s.inflight_packets.dropFront k }
  (s, rtt, some bytes)

/-- `Space::recv_ack_frame` at instant `now`.  Returns the space, the RTT
estimator and `some acked_bytes`, or `none` in place of `acked_bytes` when
the frame is stale (`ack.largest < largest_acked_pktid`) or acknowledges
nothing new. -/
def recv_ack_frame (s : Space) (af : AckFrame) (rtt : Rtt) (now : Nat) :
    Space × Rtt × Option Nat :=
  let largestAcked := af.largest
  if largestAcked < s.largest_acked_pktid then (s, rtt, none)
  else
    let s := { s with largest_acked_pktid := largestAcked }
    let ackDelay := af.delay
    let (s, noNew, incAE, bytes) := af.pns.foldl ackStep (s, true, false, 0)
    if noNew then (s, rtt, none)
    else s.recvAckTail largestAcked ackDelay rtt now incAE bytes

end Space

/-- Encoded size of a variable-length integer (spec §6: 1/2/4/8-byte forms,
per RFC 9000 §16; the encoder lives in qbase, outside the verified core). -/
def varintSize (n : Nat) : Nat :=
  if n < 64 then 1
  else if n < 16384 then 2
  else if n < 2 ^ 30 then 4
  else 8

/-- Encoded size of an ACK frame (`put_ack_frame`): type byte plus the
varint fields and ranges.  Only its effect on `remaining_mut` is observable
in `try_send`. -/
def ackFrameWireSize (af : AckFrame) : Nat :=
  1 + varintSize af.largest + varintSize af.delay +
    varintSize af.ranges.length + varintSize af.first_range +
    (af.ranges.map (fun p => varintSize p.1 + varintSize p.2)).sum

namespace Space

/-- One iteration of the control-frame loop of `try_send`: write the frame,
record it in the packet payload, charge `remaining − remaining'` to
`sent_bytes`, and mark the packet ack-eliciting. -/
def writeFrameStep (acc : Space × Nat × List Records × Nat × Bool)
    (f : CtrlFrame) : Space × Nat × List Records × Nat × Bool :=
  let (s, remaining, payload, sent_bytes, _) := acc
  let remaining' := remaining - f.wire_size
  (s, remaining', payload ++ [Records.Frame f],
    sent_bytes + (remaining - remaining'), true)

/-- `Space::try_send` (the `TrySend` impl) at instant `now`, writing into a
buffer with `cap = buf.remaining_mut()` bytes left.  Returns
`some (space, pn, sent_bytes)`; `none` models the panics inside
`gen_ack_frame` and the `unwrap` on a packet number past `VARINT_MAX`.
Faithful to the source: when an ACK frame is emitted its bytes do not enter
`sent_bytes`, all receive-record states are promoted by `into_synced`, and
the sync bookkeeping (`time_to_sync`, `new_lost_event`,
`rcvd_unreached_packet`, `last_synced_ack_largest`) is reset first. -/
def try_send (s : Space) (now : Nat) (cap : Nat) :
    Option (Space × Nat × Nat) :=
  let remaining := cap
  let step1 :
      Option (Space × Nat × List Records) :=
    if s.need_send_ack_frame now then
      match s.gen_ack_frame now with
      | none => none
      | some (af, s₁) =>
        let s₂ := { s₁ with
          time_to_sync := none
          new_lost_event := false
          rcvd_unreached_packet := false
          last_synced_ack_largest := af.largest }
        let remaining := remaining - ackFrameWireSize af
        let s₃ := { s₂ with rcvd_packets :=
          ⟨s₂.rcvd_packets.offset, s₂.rcvd_packets.items.map RcvdState.into_synced⟩ }
        some (s₃, remaining, [Records.Ack af.largest])
    else some (s, remaining, [])
  match step1 with
  | none => none
  | some (s, remaining, payload) =>
    let (s, _, payload, sent_bytes, is_ack_eliciting) :=
      s.frames.foldl writeFrameStep
        ({ s with frames := [] }, remaining, payload, 0, false)
    let s :=
      if is_ack_eliciting then
        { s with time_of_last_sent_ack_eliciting_packet := some now }
      else s
    match s.inflight_packets.push
        (some { send_time := now, payload := payload,
                sent_bytes := sent_bytes, is_ack_eliciting := is_ack_eliciting }) with
    | none => none
    | some (pktid, infl) =>
      some ({ s with inflight_packets := infl }, pktid, sent_bytes)

/-- The frame loop of `Space::receive` (the `Receive` impl): dispatch each
parsed frame, tracking the ack-eliciting bit; an ACK frame in an unreliable
(0-RTT) space aborts with `PROTOCOL_VIOLATION` keyed to the ACK frame type.
Returns the (partially) mutated space, the RTT estimator, the ack-eliciting
bit and the error, if any. -/
def recvFrames (s : Space) (rtt : Rtt) (ae : Bool) (now : Nat) :
    List SpaceFrame → Space × Rtt × Bool × Option QuicError
  | [] => (s, rtt, ae, none)
  | f :: fs =>
    match f with
    | .padding => recvFrames s rtt ae now fs
    | .ack af =>
      if s.reliable then
        let (s', rtt', _) := s.recv_ack_frame af rtt now
        recvFrames s' rtt' ae now fs
      else
        (s, rtt, ae,
          some { kind := .ProtocolViolation, frame_type := .Ack,
                 reason := "No ACK frame can be received in 0-RTT packets" })
    | .close => recvFrames (s.logEvent .recvClose) rtt ae now fs
    | .data d => recvFrames (s.logEvent (.recvData d)) rtt true now fs
    | .info fr => recvFrames (s.logEvent (.recvFrame fr)) rtt true now fs

/-- `Space::receive` at instant `now`, with the payload already parsed
(`parse_frames_from_bytes` is byte decoding in qbase, outside the verified
core).  Returns the space and RTT estimator after the call together with the
`Result`: stale or duplicate packet numbers are silent no-ops, then the
frames are dispatched, the receive record extended, and for an ack-eliciting
packet the `largest_rcvd_ack_eliciting_pktid` / `new_lost_event` /
`rcvd_unreached_packet` / `time_to_sync` bookkeeping is updated. -/
def receive (s : Space) (pktid : Nat) (payload : List SpaceFrame) (rtt : Rtt)
    (now : Nat) : Space × Rtt × Option QuicError :=
  if pktid < s.rcvd_packets.offset then (s, rtt, none)
  else if !(match s.rcvd_packets.get pktid with
            | some .NotReceived | some .Unreached => true
            | _ => false)
          && !(decide (pktid ≥ s.rcvd_packets.offset + s.rcvd_packets.items.length))
    -- a packet number never seen before — at or beyond the right end of the
    -- receive record, where `rcvd_packets` holds the default `NotReceived` —
    -- passes the guard, exactly as the spec describes the no-op cases:
    -- "Reject if pn < rcvd_packets.offset"; "Reject with no-op if already
    -- Ignored|Important|Synced"
    then (s, rtt, none)
  else
    let (s, rtt, is_ack_eliciting, err) := s.recvFrames rtt false now payload
    match err with
    | some e => (s, rtt, some e)
    | none =>
      let s := { s with rcvd_packets :=
        s.rcvd_packets.insertExtend pktid (RcvdState.rcvd now is_ack_eliciting) }
      if is_ack_eliciting then
        let s :=
          if s.largest_rcvd_ack_eliciting_pktid < pktid then
            let lost :=
              ((((s.rcvd_packets.withIdx.reverse.dropWhile
                    (fun p => decide (p.1 ≥ pktid))).drop
                  PACKET_THRESHOLD).takeWhile
                  (fun p => decide (p.1 > s.last_synced_ack_largest))).any
                (fun p => p.2.isNotReceived))
            { s with largest_rcvd_ack_eliciting_pktid := pktid,
                     new_lost_event := s.new_lost_event || lost }
          else s
        let s :=
          if pktid < s.last_synced_ack_largest then
            { s with rcvd_unreached_packet := true }
          else s
        let s := { s with time_to_sync :=
          (s.time_to_sync).orElse (fun _ => some (now + s.max_ack_delay)) }
        (s, rtt, none)
      else (s, rtt, none)

end Space

/-- `ConnectionId` (qbase::cid): an opaque 0–20 byte sequence; only equality
is observable in the verified core. -/
structure ConnectionId where
  bytes : List Nat
deriving DecidableEq, Repr

/-- `Role` (qbase::sid). -/
inductive Role where
  | Client
  | Server
deriving DecidableEq, Repr

/-- `MAX_STREAMS_LIMIT` (qbase::sid, not under src/; the spec bounds
`initial_max_streams_{bidi,uni}` by `2^60 − 1`). -/
def MAX_STREAMS_LIMIT : Nat := 2 ^ 60 - 1

/-- `CommonParameters` (qbase::param::core, not under src/): modelled from
the spec's §3 field list, restricted to the fields the verified operations
read. -/
structure CommonParameters where
  max_udp_payload_size : Nat
  ack_delay_exponent : Nat
  max_ack_delay : Nat
  active_connection_id_limit : Nat
  initial_max_streams_bidi : Nat
  initial_max_streams_uni : Nat
  initial_source_connection_id : ConnectionId
deriving DecidableEq, Repr

/-- `ClientParameters`: the common fields (no role-specific field is read by
the verified operations). -/
structure ClientParameters where
  common : CommonParameters
deriving DecidableEq, Repr

/-- `ServerParameters`: common fields plus the server-only connection IDs.
`retry_source_connection_id` is optional on the wire and compared as an
`Option` in `authenticate_cids`; the other two are plain values there. -/
structure ServerParameters where
  common : CommonParameters
  retry_source_connection_id : Option ConnectionId
  original_destination_connection_id : ConnectionId
deriving DecidableEq, Repr

/-- `Requirements` (qbase/src/param.rs). -/
structure Requirements where
  initial_source_connection_id : Option ConnectionId
  retry_source_connection_id : Option ConnectionId
  original_destination_connection_id : Option ConnectionId
deriving DecidableEq, Repr

/-- `Parameters` (qbase/src/param.rs).  The waker list is scheduling state
with no influence on the verified results and is not modelled. -/
structure Parameters where
  role : Role
  state : Nat
  client : ClientParameters
  server : ServerParameters
  remembered : Option CommonParameters
  requirements : Requirements
deriving DecidableEq, Repr

/-- The remote parameter block after wire decoding.  Modelled from the spec:
`be_server_parameters` / `be_client_parameters` (qbase::param::util, not
under src/) parse the TLS extension bytes according to the local role; the
decoded record stands in for the byte string. -/
inductive ParsedRemote where
  | server (ps : ServerParameters)
  | client (pc : ClientParameters)
deriving DecidableEq, Repr

namespace Parameters

def CLIENT_READY : Nat := 1
def SERVER_READY : Nat := 2

/-- `Parameters::new_client`. -/
def new_client (client : ClientParameters) (remembered : Option CommonParameters) :
    Parameters :=
  { role := .Client, state := CLIENT_READY, client := client,
    server := { common := { max_udp_payload_size := 0, ack_delay_exponent := 0,
                            max_ack_delay := 0, active_connection_id_limit := 0,
                            initial_max_streams_bidi := 0, initial_max_streams_uni := 0,
                            initial_source_connection_id := ⟨[]⟩ },
                retry_source_connection_id := none,
                original_destination_connection_id := ⟨[]⟩ },
    remembered := remembered,
    requirements := ⟨none, none, none⟩ }

/-- `Parameters::new_server`. -/
def new_server (server : ServerParameters) : Parameters :=
  { role := .Server, state := SERVER_READY,
    client := { common := { max_udp_payload_size := 0, ack_delay_exponent := 0,
                            max_ack_delay := 0, active_connection_id_limit := 0,
                            initial_max_streams_bidi := 0, initial_max_streams_uni := 0,
                            initial_source_connection_id := ⟨[]⟩ } },
    server := server, remembered := none,
    requirements := ⟨none, none, none⟩ }

/-- `Parameters::local` (named `localParams`: `local` is reserved in Lean). -/
def localParams (p : Parameters) : CommonParameters :=
  match p.role with
  | .Client => p.client.common
  | .Server => p.server.common

/-- `Parameters::remote`. -/
def remote (p : Parameters) : Option CommonParameters :=
  if p.role = .Client ∧ p.state &&& SERVER_READY ≠ 0 then some p.server.common
  else if p.role = .Server ∧ p.state &&& CLIENT_READY ≠ 0 then some p.client.common
  else none

/-- `Parameters::initial_scid_from_peer_need_equal`: only the first write
sticks. -/
def initial_scid_from_peer_need_equal (p : Parameters) (cid : ConnectionId) :
    Parameters :=
  if p.requirements.initial_source_connection_id = none then
    { p with requirements :=
      { p.requirements with initial_source_connection_id := some cid } }
  else p

/-- `Parameters::retry_scid_from_server_need_equal` (client only, by
debug assert). -/
def retry_scid_from_server_need_equal (p : Parameters) (cid : ConnectionId) :
    Parameters :=
  { p with requirements :=
    { p.requirements with retry_source_connection_id := some cid } }

/-- `Parameters::original_dcid_from_server_need_equal` (client only, by
debug assert). -/
def original_dcid_from_server_need_equal (p : Parameters) (cid : ConnectionId) :
    Parameters :=
  { p with requirements :=
    { p.requirements with original_destination_connection_id := some cid } }

/-- `Parameters::parse_remote_params`: a client reads the bytes as server
parameters and vice versa; `none` models a `nom` parse failure (mapped by
the caller to a `TRANSPORT_PARAMETER` error). -/
def parse_remote_params (p : Parameters) (input : ParsedRemote) :
    Option Parameters :=
  match p.role, input with
  | .Client, .server ps => some { p with server := ps }
  | .Server, .client pc => some { p with client := pc }
  | _, _ => none

/-- The error every failing check of `validate_remote_params` and
`authenticate_cids` produces: `TRANSPORT_PARAMETER` keyed to the CRYPTO
frame type. -/
def paramError (reason : String) : QuicError :=
  { kind := .TransportParameter, frame_type := .Crypto, reason := reason }

/-- `Parameters::validate_remote_params`, applied to the remote parameter
set (the source unwraps `self.remote()`, which its only caller has just made
`some` by setting both readiness bits). -/
def validate_remote_common (rp : CommonParameters) : Except QuicError Unit :=
  let reason : Option String :=
    if rp.max_udp_payload_size < 1200 then
      some "max_udp_payload_size from peer must be at least 1200"
    else if rp.ack_delay_exponent > 20 then
      some "ack_delay_exponent from peer must be at most 20"
    else if rp.max_ack_delay > 2 ^ 14 then
      some "max_ack_delay from peer must be at most 2^14"
    else if rp.active_connection_id_limit < 2 then
      some "active_connection_id_limit from peer must be at least 2"
    else if rp.initial_max_streams_bidi > MAX_STREAMS_LIMIT then
      some "initial_max_streams_bidi from peer must be at most 2^60 - 1"
    else if rp.initial_max_streams_uni > MAX_STREAMS_LIMIT then
      some "initial_max_streams_uni from peer must be at most 2^60 - 1"
    else none
  match reason with
  | some r => .error (paramError r)
  | none => .ok ()

/-- `Parameters::authenticate_cids`.  `none` models the `expect` panics on a
CID requirement that was never registered; otherwise the role's equality
checks run in source order. -/
def authenticate_cids (p : Parameters) : Option (Except QuicError Unit) :=
  match p.role with
  | .Client =>
    match p.requirements.initial_source_connection_id with
    | none => none
    | some reqInitial =>
      if p.server.common.initial_source_connection_id ≠ reqInitial then
        some (.error (paramError "Initial Source Connection ID from server mismatch"))
      else if p.server.retry_source_connection_id ≠
          p.requirements.retry_source_connection_id then
        some (.error (paramError "Retry Source Connection ID mismatch"))
      else
        match p.requirements.original_destination_connection_id with
        | none => none
        | some reqOd =>
          if p.server.original_destination_connection_id ≠ reqOd then
            some (.error (paramError "Original Destination Connection ID mismatch"))
          else some (.ok ())
  | .Server =>
    match p.requirements.initial_source_connection_id with
    | none => none
    | some reqInitial =>
      if p.client.common.initial_source_connection_id ≠ reqInitial then
        some (.error (paramError "Initial Source Connection ID from client mismatch"))
      else some (.ok ())

/-- `Parameters::recv_remote_params`: set both readiness bits, parse, then
validate bounds, then authenticate CIDs.  Returns the (possibly partially
mutated) record together with the `Result`; `none` models the `expect`
panics inside `authenticate_cids`. -/
def recv_remote_params (p : Parameters) (input : ParsedRemote) :
    Option (Parameters × Except QuicError Unit) :=
  let p := { p with state := CLIENT_READY ||| SERVER_READY }
  match p.parse_remote_params input with
  | none =>
    some (p, .error (paramError "parse error"))
  | some p =>
    match validate_remote_common (p.remote.getD p.localParams) with
    | .error e => some (p, .error e)
    | .ok _ =>
      match p.authenticate_cids with
      | none => none
      | some (.error e) => some (p, .error e)
      | some (.ok _) => some (p, .ok ())

end Parameters

/-- `ArcParameters`: the `Arc<Mutex<Result<Parameters, Error>>>` cell, whose
guarded value either holds the live registry or is frozen in a terminal
error. -/
def ArcParameters : Type := Except QuicError Parameters

namespace ArcParameters

/-- `ArcParameters::local`. -/
def localParams : ArcParameters → Option CommonParameters
  | .error _ => none
  | .ok p => some p.localParams

/-- `ArcParameters::remote`. -/
def remote : ArcParameters → Option CommonParameters
  | .error _ => none
  | .ok p => p.remote

/-- `ArcParameters::recv_remote_params`: a frozen cell fails fast with its
stored error; otherwise the inner call runs, and on failure the cell is
replaced by the error before it is returned ("避免外界拿到错误的参数").
`none` models the `expect` panics. -/
def recv_remote_params (g : ArcParameters) (input : ParsedRemote) :
    Option (ArcParameters × Except QuicError Unit) :=
  match g with
  | .error e => some (.error e, .error e)
  | .ok params =>
    match params.recv_remote_params input with
    | none => none
    | some (params', .error e) =>
      let _ := params'
      some (.error e, .error e)
    | some (params', .ok _) => some (.ok params', .ok ())

/-- `ArcParameters::has_rcvd_remote_params`. -/
def has_rcvd_remote_params : ArcParameters → Bool
  | .error _ => false
  | .ok p => p.state = Parameters.CLIENT_READY ||| Parameters.SERVER_READY

/-- `ArcParameters::on_conn_error`. -/
def on_conn_error (g : ArcParameters) (e : QuicError) : ArcParameters :=
  match g with
  | .error _ => g
  | .ok _ => .error e

end ArcParameters

/-- `Frame` as seen by the Data-scope dispatcher
(qconnection/src/connection/scope/data.rs), one constructor per arm of
`dispatch_data_frames`. -/
inductive DataScopeFrame where
  | close
  | newToken
  | maxData
  | newConnectionId
  | retireConnectionId
  | handshakeDone
  | dataBlocked
  | ack (af : AckFrame)
  | challenge
  | response
  | streamCtrl
  | stream (d : Nat)
  | crypto (d : Nat)
  | datagram (d : Nat)
  | padding
  | ping
deriving DecidableEq, Repr

namespace DataScopeFrame

/-- The wire frame type of a Data-scope frame, as carried in errors. -/
def frameType : DataScopeFrame → FrameType
  | .ack _ => .Ack
  | .crypto _ => .Crypto
  | .newToken => .NewToken
  | .handshakeDone => .HandshakeDone
  | .response => .PathResponse
  | .retireConnectionId => .RetireConnectionId
  | .stream _ => .Stream
  | .datagram _ => .Datagram
  | _ => .Padding

/-- Whether the frame elicits an acknowledgement (spec glossary: any frame
other than ACK, PADDING, or CONNECTION_CLOSE). -/
def isAckEliciting : DataScopeFrame → Bool
  | .ack _ => false
  | .padding => false
  | .close => false
  | _ => true

/-- Modelled from the spec: whether a frame may appear in a 0-RTT packet —
"a 0-RTT space receiving ACK/CRYPTO/HANDSHAKE_DONE/NEW_TOKEN/PATH_RESPONSE/
RETIRE_CONNECTION_ID is a PROTOCOL_VIOLATION" (spec §4.1). -/
def allowedInZeroRtt : DataScopeFrame → Bool
  | .ack _ => false
  | .crypto _ => false
  | .handshakeDone => false
  | .newToken => false
  | .response => false
  | .retireConnectionId => false
  | _ => true

end DataScopeFrame

/-- The sinks `dispatch_data_frames` routes frames to (the mpsc channels,
the path and the connection-error sink of `DataScope::build`), recorded as
an event log. -/
inductive DispatchEvent where
  | ccfRcvd
  | newTokenSent
  | maxDataSent
  | newCidSent
  | retireCidSent
  | handshakeDoneSent
  | pathOnAck (largest : Nat)
  | ackSent (largest : Nat)
  | challengeRecvd
  | responseRecvd
  | streamCtrlSent
  | streamSent (d : Nat)
  | cryptoSent (d : Nat)
  | datagramSent (d : Nat)
deriving DecidableEq, Repr

/-- `dispatch_data_frames` (qconnection/src/connection/scope/data.rs): route
one frame to its sink and return the packet's ack-eliciting bit. -/
def dispatch_data_frames (f : DataScopeFrame) (is_ack_eliciting : Bool) :
    List DispatchEvent × Bool :=
  let events :=
    match f with
    | .close => [DispatchEvent.ccfRcvd]
    | .newToken => [DispatchEvent.newTokenSent]
    | .maxData => [DispatchEvent.maxDataSent]
    | .newConnectionId => [DispatchEvent.newCidSent]
    | .retireConnectionId => [DispatchEvent.retireCidSent]
    | .handshakeDone => [DispatchEvent.handshakeDoneSent]
    | .dataBlocked => []
    | .ack af => [DispatchEvent.pathOnAck af.largest, DispatchEvent.ackSent af.largest]
    | .challenge => [DispatchEvent.challengeRecvd]
    | .response => [DispatchEvent.responseRecvd]
    | .streamCtrl => [DispatchEvent.streamCtrlSent]
    | .stream d => [DispatchEvent.streamSent d]
    | .crypto d => [DispatchEvent.cryptoSent d]
    | .datagram d => [DispatchEvent.datagramSent d]
    | .padding | .ping => []
  (events, is_ack_eliciting)

/-- One `FrameReader` item for a 0-RTT packet.  Modelled from the spec:
`FrameReader` (qbase::frame, not under src/) decodes each frame and checks
it against the carrying packet type, so a frame that cannot appear in a
0-RTT packet surfaces as a `PROTOCOL_VIOLATION` keyed to that frame's type
before it is dispatched. -/
def frameReaderZeroRttItem (f : DataScopeFrame) :
    Except QuicError (DataScopeFrame × Bool) :=
  if f.allowedInZeroRtt then .ok (f, f.isAckEliciting)
  else
    .error { kind := .ProtocolViolation, frame_type := f.frameType,
             reason := "frame type cannot appear in 0-RTT packets" }

/-- One step of the `try_fold` of `parse_0rtt_packet_and_dispatch_frames`:
a reader error aborts, otherwise the frame is dispatched and the packet's
ack-eliciting bit accumulated. -/
def dispatchZeroRttStep (acc : Except QuicError (Bool × List DispatchEvent))
    (f : DataScopeFrame) : Except QuicError (Bool × List DispatchEvent) :=
  match acc with
  | .error e => .error e
  | .ok (isAckPacket, events) =>
    match frameReaderZeroRttItem f with
    | .error e => .error e
    | .ok (f, ae) =>
      let (evs, ae') := dispatch_data_frames f ae
      .ok (isAckPacket || ae', events ++ evs)

/-- The `try_fold` of `parse_0rtt_packet_and_dispatch_frames`: dispatch the
payload of one decrypted 0-RTT packet frame by frame, stopping at the first
reader error (which `DataScope::build` forwards to the connection-error
sink). -/
def dispatchZeroRttPayload (payload : List DataScopeFrame) :
    Except QuicError (Bool × List DispatchEvent) :=
  payload.foldl dispatchZeroRttStep (.ok (false, []))

/-! ## Concrete scenarios

Concrete states used by the scenario theorems below: a fresh Data space
(`max_ack_delay` = 25 ms before negotiation, per the spec's data model), a
plain RTT estimator, and the packet sequences of the spec's end-to-end
scenarios. -/

/-- A fresh reliable packet-number space (all `Default` fields of `Space`,
with the spec's pre-negotiation `max_ack_delay` of 25 ms). -/
def freshSpace : Space :=
  { frames := [], inflight_packets := ⟨0, []⟩, disorder_tolerance := 0,
    time_of_last_sent_ack_eliciting_packet := none, largest_acked_pktid := 0,
    loss_time := none, rcvd_packets := ⟨0, []⟩,
    largest_rcvd_ack_eliciting_pktid := 0, last_synced_ack_largest := 0,
    new_lost_event := false, rcvd_unreached_packet := false,
    time_to_sync := none, max_ack_delay := 25000, transmission := [],
    reliable := true }

/-- An RTT estimator with a 10 ms smoothed and latest sample. -/
def exampleRtt : Rtt := { smoothed_rtt := 10000, latest_rtt := 10000 }

/-- Scenario S1: packet numbers 0, 1, 2, all ack-eliciting, received at
instants 0, 10 and 20 µs into a fresh Data space. -/
def spaceS1 : Space :=
  (((freshSpace.receive 0 [.info ⟨1, 5⟩] exampleRtt 0).1.receive
      1 [.info ⟨2, 5⟩] exampleRtt 10).1.receive
      2 [.info ⟨3, 5⟩] exampleRtt 20).1

/-- Scenario S2, first step: ack-eliciting packet number 0 at instant 0. -/
def spaceS2a : Space := (freshSpace.receive 0 [.info ⟨1, 5⟩] exampleRtt 0).1

/-- Scenario S2, second step: ack-eliciting packet number 2 at instant
1000 µs, skipping packet number 1. -/
def spaceS2 : Space := (spaceS2a.receive 2 [.info ⟨2, 5⟩] exampleRtt 1000).1

/-- An ack-eliciting inflight packet carrying one control-frame record. -/
def inflilghtPacket (t tag : Nat) : SentPacket :=
  { send_time := t, payload := [Records.Frame ⟨tag, 4⟩], sent_bytes := 10,
    is_ack_eliciting := true }

/-- Scenario S3: packets 5, 6, 7, 8 inflight, all sent at instant 100. -/
def spaceS3 : Space :=
  { freshSpace with inflight_packets :=
      ⟨5, [some (inflilghtPacket 100 5), some (inflilghtPacket 100 6),
           some (inflilghtPacket 100 7), some (inflilghtPacket 100 8)]⟩ }

/-- Scenario S3's ACK frame: `largest=8, first_range=0,
ranges=[(0,1),(0,1)]`. -/
def ackS3 : AckFrame :=
  { largest := 8, delay := 0, first_range := 0, ranges := [(0, 1), (0, 1)] }

/-- A space with an old unacknowledged packet 4 (and packet 8) inflight,
used to exhibit the fast-retransmit drain: `4 < 8 − PACKET_THRESHOLD`. -/
def spaceOldInflight : Space :=
  { freshSpace with inflight_packets :=
      ⟨4, [some (inflilghtPacket 100 44), none, none, none,
           some (inflilghtPacket 100 88)]⟩ }

/-- An ACK frame acknowledging only packet number 8. -/
def ackOnly8 : AckFrame :=
  { largest := 8, delay := 0, first_range := 0, ranges := [] }

/-- A space ready to emit an ACK frame: receive record `0..=2` with a gap at
1, and a pending `new_lost_event`. -/
def spaceReadyToAck : Space :=
  { freshSpace with
    rcvd_packets := ⟨0, [.Important 0, .NotReceived, .Important 10]⟩,
    new_lost_event := true }

/-- A space whose ACK deadline is armed at instant 5 with an `Important`
entry recorded — the claims' precondition state for `need_send_ack_frame`
once `now` has reached the deadline. -/
def spaceDeadlinePassed : Space :=
  { freshSpace with
    rcvd_packets := ⟨0, [.Important 0]⟩,
    time_to_sync := some 5 }

/-- A 0-RTT (unreliable) space. -/
def zeroRttSpace : Space := { freshSpace with reliable := false }

/-- Connection IDs for the parameter scenarios. -/
def cidX : ConnectionId := ⟨[1, 2, 3]⟩

def cidY : ConnectionId := ⟨[4, 5]⟩

def cidZ : ConnectionId := ⟨[6]⟩

/-- A remote parameter set satisfying every §4.2 bound. -/
def goodCommon : CommonParameters :=
  { max_udp_payload_size := 1500, ack_delay_exponent := 3,
    max_ack_delay := 25, active_connection_id_limit := 2,
    initial_max_streams_bidi := 100, initial_max_streams_uni := 100,
    initial_source_connection_id := cidY }

/-- The client-side registry after the handshake exchanges of scenario S4:
the first Initial from the server carried SCID `cidY`, the client first sent
DCID `cidX`, no Retry occurred. -/
def clientParamsReady : Parameters :=
  ((Parameters.new_client { common := goodCommon } none
      ).initial_scid_from_peer_need_equal cidY
      ).original_dcid_from_server_need_equal cidX

/-- Server parameters whose CIDs all match `clientParamsReady`'s
requirements. -/
def serverParamsMatching : ServerParameters :=
  { common := goodCommon, retry_source_connection_id := none,
    original_destination_connection_id := cidX }

/-- The same server parameters with a violating `max_udp_payload_size`. -/
def serverParamsSmallUdp : ServerParameters :=
  { serverParamsMatching with
    common := { goodCommon with max_udp_payload_size := 100 } }

/-- The same server parameters with a mismatching
`initial_source_connection_id` (`cidZ` instead of `cidY`): scenario S4. -/
def serverParamsBadInitial : ServerParameters :=
  { serverParamsMatching with
    common := { goodCommon with initial_source_connection_id := cidZ } }

/-- The decoded remote parameters' common fields (what
`validate_remote_params` sees through `remote()` after a successful
parse). -/
def ParsedRemote.common : ParsedRemote → CommonParameters
  | .server ps => ps.common
  | .client pc => pc.common

/-- The claim's CID equality checks, stated from the spec (§4.2, "CID
authentication"): for a client, the server's `initial_source_connection_id`
equals the registered SCID of the first Initial received, the
`retry_source_connection_id` equals the registered Retry SCID requirement
(absent on both sides when no Retry occurred), and the
`original_destination_connection_id` equals the registered first-sent DCID;
for a server, the client's `initial_source_connection_id` equals the
registered SCID of the client's first Initial. -/
def cidChecksPass (p : Parameters) (input : ParsedRemote) : Bool :=
  match p.role, input with
  | .Client, .server ps =>
    decide (some ps.common.initial_source_connection_id =
      p.requirements.initial_source_connection_id) &&
    decide (ps.retry_source_connection_id =
      p.requirements.retry_source_connection_id) &&
    decide (some ps.original_destination_connection_id =
      p.requirements.original_destination_connection_id)
  | .Server, .client pc =>
    decide (some pc.common.initial_source_connection_id =
      p.requirements.initial_source_connection_id)
  | _, _ => false

/-- The space `try_send` produces from `spaceReadyToAck` at instant 50 with
capacity 1000: the pending ACK (largest 2) is emitted as packet 0 with no
control frames, and the receive records are promoted by `into_synced`. -/
def spaceReadyToAckSent : Space :=
  { frames := [],
    inflight_packets := ⟨0, [some ⟨50, [Records.Ack 2], 0, false⟩]⟩,
    disorder_tolerance := 0,
    time_of_last_sent_ack_eliciting_packet := none,
    largest_acked_pktid := 0, loss_time := none,
    rcvd_packets := ⟨0, [.Synced 0, .Unreached, .Synced 10]⟩,
    largest_rcvd_ack_eliciting_pktid := 0, last_synced_ack_largest := 2,
    new_lost_event := false, rcvd_unreached_packet := false,
    time_to_sync := none, max_ack_delay := 25000, transmission := [],
    reliable := true }

/-- Spec-side predicate: the remote common parameters violate at least one
of the six bounds that `validate_remote_common` enforces (spec.md section
4.2). -/
def violatesBounds (rp : CommonParameters) : Bool :=
  decide (rp.max_udp_payload_size < 1200) ||
  decide (rp.ack_delay_exponent > 20) ||
  decide (rp.max_ack_delay > 2 ^ 14) ||
  decide (rp.active_connection_id_limit < 2) ||
  decide (rp.initial_max_streams_bidi > MAX_STREAMS_LIMIT) ||
  decide (rp.initial_max_streams_uni > MAX_STREAMS_LIMIT)

/-! ## Helper lemmas -/

/-- A fold preserves any invariant its step preserves. -/
theorem foldl_preserveP {α β : Type} (P : α → Prop) (f : α → β → α)
    (hstep : ∀ a b, P a → P (f a b)) :
    ∀ (l : List β) (a : α), P a → P (l.foldl f a) := by
  intro l
  induction l with
  | nil => intro a ha; exact ha
  | cons b l ih => intro a ha; exact ih (f a b) (hstep a b ha)

/-- A fold whose step both establishes and preserves a pointwise property
satisfies it for every processed element. -/
theorem foldl_establishP {α β : Type} (P : β → α → Prop) (f : α → β → α)
    (hpres : ∀ a b b', P b' a → P b' (f a b))
    (hest : ∀ a b, P b (f a b)) :
    ∀ (l : List β) (a : α) b, b ∈ l → P b (l.foldl f a) := by
  intro l
  induction l with
  | nil => intro a b hb; cases hb
  | cons c l ih =>
    intro a b hb
    rcases List.mem_cons.mp hb with h | h
    · subst h
      exact foldl_preserveP (P b) f (fun a c => hpres a c b) l (f a b)
        (hest a b)
    · exact ih (f a c) b h

namespace IndexDeque

theorem get_some_bounds {α : Type} {d : IndexDeque α} {i : Nat} {x : α}
    (h : d.get i = some x) :
    d.offset ≤ i ∧ i - d.offset < d.items.length := by
  unfold get at h
  by_cases hc : i < d.offset
  · simp [hc] at h
  · refine ⟨Nat.le_of_not_lt hc, ?_⟩
    simp only [if_neg hc] at h
    exact List.get?_eq_some.mp h |>.1

theorem get_setAt_self {α : Type} {d : IndexDeque α} {i : Nat} {x : α}
    (h : d.get i = some x) (v : α) : (d.setAt i v).get i = some v := by
  obtain ⟨hle, hlt⟩ := get_some_bounds h
  unfold get setAt
  simp only [if_neg (Nat.not_lt.mpr hle)]
  exact List.get?_set_eq_of_lt v hlt

theorem get_setAt_other {α : Type} (d : IndexDeque α) {i : Nat} (j : Nat)
    (v : α) (hoff : d.offset ≤ i) (hne : i ≠ j) :
    (d.setAt i v).get j = d.get j := by
  unfold get setAt
  by_cases hj : j < d.offset
  · simp [hj]
  · simp only [if_neg hj]
    refine List.get?_set_ne v d.items ?_
    intro hij
    exact hne (by omega)

/-- The drained deque reads back only entries of the original deque. -/
theorem get_drainTo_of_some {α : Type} {d : IndexDeque α} {n i : Nat} {x : α}
    (h : ((d.drainTo n).2).get i = some x) : d.get i = some x := by
  unfold drainTo get at h
  unfold get
  by_cases hc : i < d.offset + min (n - d.offset) d.items.length
  · simp [hc] at h
  · simp only [if_neg hc] at h
    have hoff : ¬ i < d.offset := by omega
    simp only [if_neg hoff]
    rw [List.get?_drop] at h
    have : min (n - d.offset) d.items.length +
        (i - (d.offset + min (n - d.offset) d.items.length)) = i - d.offset := by
      omega
    rwa [this] at h

/-- Every index below the drain target is gone afterwards. -/
theorem get_drainTo_lt {α : Type} (d : IndexDeque α) {n i : Nat}
    (h : i < n) : ((d.drainTo n).2).get i = none := by
  unfold drainTo get
  by_cases hc : i < d.offset + min (n - d.offset) d.items.length
  · simp [hc]
  · simp only [if_neg hc]
    rw [List.get?_drop]
    refine List.get?_eq_none.mpr ?_
    have : d.items.length ≤ d.items.length := le_refl _
    omega

/-- The compacted deque reads back only entries of the original deque. -/
theorem get_dropFront_of_some {α : Type} {d : IndexDeque α} {k i : Nat}
    {x : α} (h : ((d.dropFront k)).get i = some x) : d.get i = some x := by
  unfold dropFront get at h
  unfold get
  by_cases hc : i < d.offset + k
  · simp [hc] at h
  · simp only [if_neg hc] at h
    have hoff : ¬ i < d.offset := by omega
    simp only [if_neg hoff]
    rw [List.get?_drop] at h
    have : k + (i - (d.offset + k)) = i - d.offset := by omega
    rwa [this] at h

/-- Absent entries stay absent under compaction. -/
theorem get_dropFront_none {α : Type} {d : IndexDeque α} {k i : Nat}
    (h : d.get i = none) : ((d.dropFront k)).get i = none := by
  by_cases hc : ∃ x, ((d.dropFront k)).get i = some x
  · obtain ⟨x, hx⟩ := hc
    rw [get_dropFront_of_some hx] at h
    cases h
  · cases hg : ((d.dropFront k)).get i with
    | none => rfl
    | some x => exact absurd ⟨x, hg⟩ hc

/-- Absent entries stay absent when an existing slot is overwritten in
place. -/
theorem get_none_set {α : Type} {d : IndexDeque α} {i : Nat} (j : Nat)
    (v : α) (h : d.get i = none) :
    (⟨d.offset, d.items.set j v⟩ : IndexDeque α).get i = none := by
  unfold get at h ⊢
  by_cases hc : i < d.offset
  · simp [hc]
  · simp only [if_neg hc] at h ⊢
    have : d.items.length ≤ i - d.offset := List.get?_eq_none.mp h
    exact List.get?_eq_none.mpr (by simpa using this)

end IndexDeque

namespace Space

/-- `confirm` touches only `rcvd_packets` and the event log. -/
theorem confirm_fields (s : Space) (p : List Records) :
    (s.confirm p).inflight_packets = s.inflight_packets ∧
    (s.confirm p).largest_acked_pktid = s.largest_acked_pktid ∧
    (s.confirm p).frames = s.frames ∧
    (s.confirm p).loss_time = s.loss_time := by
  unfold confirm
  refine foldl_preserveP
    (fun s' => s'.inflight_packets = s.inflight_packets ∧
      s'.largest_acked_pktid = s.largest_acked_pktid ∧
      s'.frames = s.frames ∧ s'.loss_time = s.loss_time)
    _ ?_ p s ⟨rfl, rfl, rfl, rfl⟩
  intro a r ha
  cases r <;> simpa [logEvent] using ha

/-- `lossRecord` touches only `frames` and the event log. -/
theorem lossRecord_fields (s : Space) (r : Records) :
    (lossRecord s r).inflight_packets = s.inflight_packets ∧
    (lossRecord s r).largest_acked_pktid = s.largest_acked_pktid ∧
    (lossRecord s r).loss_time = s.loss_time := by
  cases r <;> simp [lossRecord, logEvent]

/-- A payload-long `lossRecord` fold touches only `frames` and the event
log. -/
theorem lossRecord_foldl_fields (p : List Records) (s : Space) :
    (p.foldl lossRecord s).inflight_packets = s.inflight_packets ∧
    (p.foldl lossRecord s).largest_acked_pktid = s.largest_acked_pktid ∧
    (p.foldl lossRecord s).loss_time = s.loss_time := by
  refine foldl_preserveP
    (fun s' => s'.inflight_packets = s.inflight_packets ∧
      s'.largest_acked_pktid = s.largest_acked_pktid ∧
      s'.loss_time = s.loss_time)
    _ ?_ p s ⟨rfl, rfl, rfl⟩
  intro a r ha
  obtain ⟨h1, h2, h3⟩ := lossRecord_fields a r
  exact ⟨h1.trans ha.1, h2.trans ha.2.1, h3.trans ha.2.2⟩

/-- The inflight slot of `pn` holds no packet (it is out of the window or
emptied). -/
def slotClear (s : Space) (pn : Nat) : Prop :=
  ∀ pkt : SentPacket, s.inflight_packets.get pn ≠ some (some pkt)

/-- `ackStep` never refills a slot. -/
theorem slotClear_ackStep (acc : Space × Bool × Bool × Nat) (pn pn' : Nat)
    (h : slotClear acc.1 pn') : slotClear (ackStep acc pn).1 pn' := by
  obtain ⟨s, noNew, incAE, bytes⟩ := acc
  unfold ackStep
  cases hg : s.inflight_packets.get pn with
  | none => simpa [hg] using h
  | some slot =>
    cases slot with
    | none => simpa [hg] using h
    | some pkt =>
      simp only [hg]
      intro pkt'
      rw [(confirm_fields _ pkt.payload).1]
      by_cases hpn : pn = pn'
      · subst hpn
        rw [IndexDeque.get_setAt_self hg none]
        simp
      · rw [IndexDeque.get_setAt_other _ _ none
          (IndexDeque.get_some_bounds hg).1 hpn]
        exact h pkt'

/-- After `ackStep` processes `pn`, its slot is clear. -/
theorem slotClear_ackStep_self (acc : Space × Bool × Bool × Nat) (pn : Nat) :
    slotClear (ackStep acc pn).1 pn := by
  obtain ⟨s, noNew, incAE, bytes⟩ := acc
  unfold ackStep
  cases hg : s.inflight_packets.get pn with
  | none => simp only [hg]; intro pkt h; rw [hg] at h; cases h
  | some slot =>
    cases slot with
    | none => simp only [hg]; intro pkt h; rw [hg] at h; cases h
    | some pkt =>
      simp only [hg]
      intro pkt'
      rw [(confirm_fields _ pkt.payload).1]
      rw [IndexDeque.get_setAt_self hg none]
      simp

/-- After the ACK-range loop, the slot of every processed packet number is
clear. -/
theorem ackLoop_clear (pns : List Nat) (acc : Space × Bool × Bool × Nat) :
    ∀ pn ∈ pns, slotClear (pns.foldl ackStep acc).1 pn :=
  foldl_establishP (fun pn a => slotClear a.1 pn) ackStep
    (fun a b b' h => slotClear_ackStep a b b' h)
    (fun a b => slotClear_ackStep_self a b) pns acc

/-- The ACK-range loop does not change `largest_acked_pktid`. -/
theorem ackLoop_largest (pns : List Nat) (acc : Space × Bool × Bool × Nat) :
    (pns.foldl ackStep acc).1.largest_acked_pktid =
      acc.1.largest_acked_pktid := by
  refine foldl_preserveP
    (fun a => a.1.largest_acked_pktid = acc.1.largest_acked_pktid) ackStep
    ?_ pns acc rfl
  intro a pn ha
  obtain ⟨s, noNew, incAE, bytes⟩ := a
  unfold ackStep
  cases hg : s.inflight_packets.get pn with
  | none => simpa [hg] using ha
  | some slot =>
    cases slot with
    | none => simpa [hg] using ha
    | some pkt =>
      simp only [hg]
      rw [(confirm_fields _ pkt.payload).2.1]
      exact ha

/-- If every slot a frame acknowledges is already clear, the ACK-range loop
is a no-op. -/
theorem ackLoop_noop (pns : List Nat) (s : Space) (b1 b2 : Bool) (n : Nat)
    (h : ∀ pn ∈ pns, slotClear s pn) :
    pns.foldl ackStep (s, b1, b2, n) = (s, b1, b2, n) := by
  induction pns with
  | nil => rfl
  | cons pn rest ih =>
    have hstep : ackStep (s, b1, b2, n) pn = (s, b1, b2, n) := by
      unfold ackStep
      cases hg : s.inflight_packets.get pn with
      | none => simp [hg]
      | some slot =>
        cases slot with
        | none => simp [hg]
        | some pkt => exact absurd hg (h pn (List.mem_cons_self pn rest) pkt)
    rw [List.foldl_cons, hstep]
    exact ih (fun pn' hm => h pn' (List.mem_cons_of_mem pn hm))

end Space

namespace Space

/-- `slotClear` only looks at the inflight deque. -/
theorem slotClear_of_inflight_eq {s s' : Space} (pn : Nat)
    (hc : slotClear s pn) (h : s'.inflight_packets = s.inflight_packets) :
    slotClear s' pn := by
  unfold slotClear at hc ⊢
  rw [h]
  exact hc

/-- Overwriting a slot with `none` (by relative index) never refills one. -/
theorem slotClear_set_none (s : Space) (pn j : Nat) (h : slotClear s pn) :
    slotClear
      { s with inflight_packets :=
          ⟨s.inflight_packets.offset, s.inflight_packets.items.set j none⟩ }
      pn := by
  intro pkt hcontra
  unfold IndexDeque.get at hcontra
  simp only at hcontra
  by_cases hlt : pn < s.inflight_packets.offset
  · simp [hlt] at hcontra
  · simp only [if_neg hlt] at hcontra
    by_cases hj : j = pn - s.inflight_packets.offset
    · subst hj
      rw [List.get?_set_eq] at hcontra
      cases hg : s.inflight_packets.items.get? (pn - s.inflight_packets.offset) with
      | none => simp [hg] at hcontra
      | some v => simp [hg] at hcontra
    · rw [List.get?_set_ne none s.inflight_packets.items hj] at hcontra
      exact h pkt (by unfold IndexDeque.get; simp only [if_neg hlt]; exact hcontra)

/-- The fast-retransmit drain never refills a slot. -/
theorem slotClear_drain (s : Space) (pn n : Nat) (h : slotClear s pn) :
    slotClear
      { s with inflight_packets := (s.inflight_packets.drainTo n).2 } pn := by
  intro pkt hcontra
  exact h pkt (IndexDeque.get_drainTo_of_some hcontra)

/-- Compaction never refills a slot. -/
theorem slotClear_dropFront (s : Space) (pn k : Nat) (h : slotClear s pn) :
    slotClear
      { s with inflight_packets := s.inflight_packets.dropFront k } pn := by
  intro pkt hcontra
  exact h pkt (IndexDeque.get_dropFront_of_some hcontra)

/-- `lostStep` touches only `frames`, the event log and the byte count. -/
theorem lostStep_fields (acc : Space × Nat) (slot : Option SentPacket) :
    (lostStep acc slot).1.inflight_packets = acc.1.inflight_packets ∧
    (lostStep acc slot).1.largest_acked_pktid = acc.1.largest_acked_pktid ∧
    (lostStep acc slot).1.loss_time = acc.1.loss_time := by
  cases slot with
  | none => exact ⟨rfl, rfl, rfl⟩
  | some pkt => exact lossRecord_foldl_fields pkt.payload acc.1

/-- The fold over drained packets leaves the inflight deque,
`largest_acked_pktid` and `loss_time` alone. -/
theorem lostFold_fields (l : List (Option SentPacket)) (s : Space) (b : Nat) :
    (l.foldl lostStep (s, b)).1.inflight_packets = s.inflight_packets ∧
    (l.foldl lostStep (s, b)).1.largest_acked_pktid = s.largest_acked_pktid ∧
    (l.foldl lostStep (s, b)).1.loss_time = s.loss_time := by
  refine foldl_preserveP
    (fun a => a.1.inflight_packets = s.inflight_packets ∧
      a.1.largest_acked_pktid = s.largest_acked_pktid ∧
      a.1.loss_time = s.loss_time)
    lostStep ?_ l (s, b) ⟨rfl, rfl, rfl⟩
  intro a slot ha
  obtain ⟨h1, h2, h3⟩ := lostStep_fields a slot
  exact ⟨h1.trans ha.1, h2.trans ha.2.1, h3.trans ha.2.2⟩

/-- The time-threshold pass never refills a slot. -/
theorem lossPass_slotClear (s : Space) (lst ld pn : Nat)
    (h : slotClear s pn) : slotClear (s.lossPass lst ld) pn := by
  unfold lossPass
  refine foldl_preserveP (fun s' => slotClear s' pn) _ ?_ _ s h
  intro a i ha
  cases hg : a.inflight_packets.items.get? i with
  | none => simpa [hg] using ha
  | some slot =>
    cases slot with
    | none => simpa [hg] using ha
    | some pkt =>
      simp only [hg]
      by_cases ht : pkt.send_time ≤ lst
      · simp only [if_pos ht]
        have hf := (lossRecord_foldl_fields pkt.payload a).1
        refine slotClear_set_none _ pn i ?_
        exact slotClear_of_inflight_eq pn ha hf
      · simp only [if_neg ht]
        exact slotClear_of_inflight_eq pn ha rfl

/-- The time-threshold pass keeps absent slots absent. -/
theorem lossPass_get_none (s : Space) (lst ld pn : Nat)
    (h : s.inflight_packets.get pn = none) :
    (s.lossPass lst ld).inflight_packets.get pn = none := by
  unfold lossPass
  refine foldl_preserveP (fun s' => s'.inflight_packets.get pn = none) _ ?_ _ s h
  intro a i ha
  cases hg : a.inflight_packets.items.get? i with
  | none => simpa [hg] using ha
  | some slot =>
    cases slot with
    | none => simpa [hg] using ha
    | some pkt =>
      simp only [hg]
      by_cases ht : pkt.send_time ≤ lst
      · simp only [if_pos ht]
        have hf := (lossRecord_foldl_fields pkt.payload a).1
        refine IndexDeque.get_none_set i none ?_
        rw [hf]
        exact ha
      · simpa [if_neg ht] using ha

/-- The time-threshold pass does not change `largest_acked_pktid`. -/
theorem lossPass_largest (s : Space) (lst ld : Nat) :
    (s.lossPass lst ld).largest_acked_pktid = s.largest_acked_pktid := by
  unfold lossPass
  refine foldl_preserveP
    (fun s' => s'.largest_acked_pktid = s.largest_acked_pktid) _ ?_ _ s rfl
  intro a i ha
  cases hg : a.inflight_packets.items.get? i with
  | none => simpa [hg] using ha
  | some slot =>
    cases slot with
    | none => simpa [hg] using ha
    | some pkt =>
      simp only [hg]
      by_cases ht : pkt.send_time ≤ lst
      · simp only [if_pos ht]
        have hf := (lossRecord_foldl_fields pkt.payload a).2.1
        simpa [hf] using ha
      · simpa [if_neg ht] using ha

end Space

namespace Space

/-- Emptying a present slot never refills any slot. -/
theorem slotClear_setAt_none (s : Space) (pn la : Nat) {x : Option SentPacket}
    (hg : s.inflight_packets.get la = some x) (h : slotClear s pn) :
    slotClear
      { s with inflight_packets := s.inflight_packets.setAt la none } pn := by
  intro pkt hcontra
  by_cases hpn : la = pn
  · subst hpn
    rw [IndexDeque.get_setAt_self hg none] at hcontra
    cases hcontra
  · rw [IndexDeque.get_setAt_other _ _ none
      (IndexDeque.get_some_bounds hg).1 hpn] at hcontra
    exact h pkt hcontra

/-- The post-loop tail of `recv_ack_frame` never refills a slot. -/
theorem recvAckTail_slotClear (s : Space) (la ad : Nat) (rtt : Rtt)
    (now : Nat) (incAE : Bool) (bytes pn : Nat) (h : slotClear s pn) :
    slotClear (s.recvAckTail la ad rtt now incAE bytes).1 pn := by
  unfold recvAckTail
  cases hg : s.inflight_packets.get la with
  | none =>
    simp only [hg]
    refine slotClear_dropFront _ pn _ ?_
    refine lossPass_slotClear _ _ _ pn ?_
    refine @slotClear_of_inflight_eq _ _ pn ?_ ((lostFold_fields _ _ _).1)
    exact slotClear_drain s pn (la - PACKET_THRESHOLD) h
  | some slot =>
    cases slot with
    | none =>
      simp only [hg]
      refine slotClear_dropFront _ pn _ ?_
      refine lossPass_slotClear _ _ _ pn ?_
      refine @slotClear_of_inflight_eq _ _ pn ?_ ((lostFold_fields _ _ _).1)
      exact slotClear_drain s pn (la - PACKET_THRESHOLD) h
    | some pkt =>
      simp only [hg]
      refine slotClear_dropFront _ pn _ ?_
      refine lossPass_slotClear _ _ _ pn ?_
      refine @slotClear_of_inflight_eq _ _ pn ?_ ((lostFold_fields _ _ _).1)
      refine slotClear_drain _ pn (la - PACKET_THRESHOLD) ?_
      refine @slotClear_of_inflight_eq _ _ pn ?_ (confirm_fields _ pkt.payload).1
      exact slotClear_setAt_none s pn la hg h

/-- The post-loop tail does not change `largest_acked_pktid`. -/
theorem recvAckTail_largest (s : Space) (la ad : Nat) (rtt : Rtt)
    (now : Nat) (incAE : Bool) (bytes : Nat) :
    (s.recvAckTail la ad rtt now incAE bytes).1.largest_acked_pktid =
      s.largest_acked_pktid := by
  unfold recvAckTail
  cases hg : s.inflight_packets.get la with
  | none =>
    simp only [hg]
    rw [lossPass_largest]
    exact (lostFold_fields _ _ _).2.1
  | some slot =>
    cases slot with
    | none =>
      simp only [hg]
      rw [lossPass_largest]
      exact (lostFold_fields _ _ _).2.1
    | some pkt =>
      simp only [hg]
      rw [lossPass_largest]
      refine ((lostFold_fields _ _ _).2.1).trans ?_
      exact (confirm_fields _ pkt.payload).2.1

/-- Every packet number below `largest − PACKET_THRESHOLD` is out of the
inflight window once the tail has run. -/
theorem recvAckTail_lost_removed (s : Space) (la ad : Nat) (rtt : Rtt)
    (now : Nat) (incAE : Bool) (bytes pn : Nat)
    (h : pn < la - PACKET_THRESHOLD) :
    (s.recvAckTail la ad rtt now incAE bytes).1.inflight_packets.get pn =
      none := by
  unfold recvAckTail
  cases hg : s.inflight_packets.get la with
  | none =>
    simp only [hg]
    refine IndexDeque.get_dropFront_none ?_
    refine lossPass_get_none _ _ _ pn ?_
    rw [(lostFold_fields _ _ _).1]
    exact IndexDeque.get_drainTo_lt _ h
  | some slot =>
    cases slot with
    | none =>
      simp only [hg]
      refine IndexDeque.get_dropFront_none ?_
      refine lossPass_get_none _ _ _ pn ?_
      rw [(lostFold_fields _ _ _).1]
      exact IndexDeque.get_drainTo_lt _ h
    | some pkt =>
      simp only [hg]
      refine IndexDeque.get_dropFront_none ?_
      refine lossPass_get_none _ _ _ pn ?_
      rw [(lostFold_fields _ _ _).1]
      exact IndexDeque.get_drainTo_lt _ h

end Space

namespace Space

/-- Once something was newly acknowledged, `no_newly_acked` stays false. -/
theorem ackLoop_noNew_false (pns : List Nat)
    (acc : Space × Bool × Bool × Nat) (h : acc.2.1 = false) :
    (pns.foldl ackStep acc).2.1 = false := by
  refine foldl_preserveP (fun a => a.2.1 = false) ackStep ?_ pns acc h
  intro a pn ha
  obtain ⟨s, noNew, incAE, bytes⟩ := a
  unfold ackStep
  cases hg : s.inflight_packets.get pn with
  | none => simpa [hg] using ha
  | some slot =>
    cases slot with
    | none => simpa [hg] using ha
    | some pkt => simp [hg]

/-- If the ACK-range loop reports `no_newly_acked`, it was a no-op, and every
acknowledged slot was already clear at entry. -/
theorem ackLoop_noNew_eq (pns : List Nat) (s : Space) (b2 : Bool) (n : Nat)
    (s2 : Space) (ia : Bool) (b : Nat)
    (h : pns.foldl ackStep (s, true, b2, n) = (s2, true, ia, b)) :
    s2 = s ∧ ia = b2 ∧ b = n ∧ ∀ pn ∈ pns, slotClear s pn := by
  induction pns generalizing s b2 n with
  | nil =>
    rw [List.foldl_nil] at h
    refine ⟨?_, ?_, ?_, fun pn hpn => absurd hpn (List.not_mem_nil pn)⟩
    · exact (congrArg Prod.fst h).symm
    · exact (congrArg (fun p => p.2.2.1) h).symm
    · exact (congrArg (fun p => p.2.2.2) h).symm
  | cons pn rest ih =>
    rw [List.foldl_cons] at h
    cases hg : s.inflight_packets.get pn with
    | none =>
      have hstep : ackStep (s, true, b2, n) pn = (s, true, b2, n) := by
        unfold ackStep; simp [hg]
      rw [hstep] at h
      obtain ⟨h1, h2, h3, h4⟩ := ih s b2 n h
      refine ⟨h1, h2, h3, ?_⟩
      intro pn' hpn'
      rcases List.mem_cons.mp hpn' with he | hm
      · subst he
        intro pkt hc
        rw [hg] at hc
        cases hc
      · exact h4 pn' hm
    | some slot =>
      cases slot with
      | none =>
        have hstep : ackStep (s, true, b2, n) pn = (s, true, b2, n) := by
          unfold ackStep; simp [hg]
        rw [hstep] at h
        obtain ⟨h1, h2, h3, h4⟩ := ih s b2 n h
        refine ⟨h1, h2, h3, ?_⟩
        intro pn' hpn'
        rcases List.mem_cons.mp hpn' with he | hm
        · subst he
          intro pkt hc
          rw [hg] at hc
          cases hc
        · exact h4 pn' hm
      | some pkt =>
        exfalso
        have hstep : (ackStep (s, true, b2, n) pn).2.1 = false := by
          unfold ackStep; simp [hg]
        have := ackLoop_noNew_false rest _ hstep
        rw [h] at this
        cases this

/-- Updating `largest_acked_pktid` to its current value is the identity. -/
theorem update_largest_self (x : Space) (v : Nat)
    (h : x.largest_acked_pktid = v) :
    ({ x with largest_acked_pktid := v } : Space) = x := by
  cases x
  simp only at h
  simp [h]

end Space

/-! ## Claim theorems -/

/-- C6: applying the same `AckFrame` to a space twice in succession via
`recv_ack_frame` leaves the space in the same internal state
(`inflight_packets`, retransmission `frames` queue, `rcvd_packets`,
`largest_acked_pktid`, `loss_time` — the whole `Space` record, including the
notification log, is equal) as applying it once, and the second application
returns `none` before reaching any `confirm` / `confirm_data` / `may_loss`
notification: every newly acknowledged slot was emptied by the first
application, so the second reports `no_newly_acked` and stops. -/
theorem recv_ack_frame_idempotent (s : Space) (af : AckFrame) (rtt rtt₂ : Rtt) (now now₂ : Nat) :
    ((s.recv_ack_frame af rtt now).1.recv_ack_frame af rtt₂ now₂).1 =
      (s.recv_ack_frame af rtt now).1 ∧
    ((s.recv_ack_frame af rtt now).1.recv_ack_frame af rtt₂ now₂).2.2 = none := by
  by_cases hstale : af.largest < s.largest_acked_pktid
  · have h1 : s.recv_ack_frame af rtt now = (s, rtt, none) := by
      unfold Space.recv_ack_frame
      rw [if_pos hstale]
    have h2 : s.recv_ack_frame af rtt₂ now₂ = (s, rtt₂, none) := by
      unfold Space.recv_ack_frame
      rw [if_pos hstale]
    rw [h1]
    simp only [h2]
    exact ⟨trivial, trivial⟩
  · rcases hfold : af.pns.foldl Space.ackStep
        ({ s with largest_acked_pktid := af.largest }, true, false, 0)
      with ⟨s2, nn, ia, b⟩
    have h1 : s.recv_ack_frame af rtt now =
        (if nn then (s2, rtt, none)
         else s2.recvAckTail af.largest af.delay rtt now ia b) := by
      unfold Space.recv_ack_frame
      rw [if_neg hstale]
      simp only [hfold]
    have hlarge2 : s2.largest_acked_pktid = af.largest := by
      have := Space.ackLoop_largest af.pns
        ({ s with largest_acked_pktid := af.largest }, true, false, 0)
      rw [hfold] at this
      simpa using this
    cases nn with
    | true =>
      obtain ⟨hs2, hia, hb, hclear⟩ := Space.ackLoop_noNew_eq _ _ _ _ _ _ _ hfold
      have hstale2 : ¬ af.largest < s2.largest_acked_pktid := by
        rw [hlarge2]; exact lt_irrefl _
      have hupd : ({ s2 with largest_acked_pktid := af.largest } : Space) = s2 :=
        Space.update_largest_self s2 af.largest hlarge2
      have hclear2 : ∀ pn ∈ af.pns, Space.slotClear s2 pn := by
        intro pn hpn
        rw [hs2]
        exact hclear pn hpn
      have hnoop : af.pns.foldl Space.ackStep
          ({ s2 with largest_acked_pktid := af.largest }, true, false, 0) =
          ({ s2 with largest_acked_pktid := af.largest }, true, false, 0) := by
        refine Space.ackLoop_noop _ _ _ _ _ ?_
        intro pn hpn
        refine Space.slotClear_of_inflight_eq pn (hclear2 pn hpn) ?_
        rw [hupd]
      have h1' : s.recv_ack_frame af rtt now = (s2, rtt, none) := by
        rw [h1]
        exact rfl
      have h2' : s2.recv_ack_frame af rtt₂ now₂ = (s2, rtt₂, none) := by
        unfold Space.recv_ack_frame
        rw [if_neg hstale2]
        simp only [hnoop]
        rw [hupd]
        exact if_pos trivial
      rw [h1', h2']
      exact ⟨rfl, rfl⟩
    | false =>
      have h1' : s.recv_ack_frame af rtt now =
          s2.recvAckTail af.largest af.delay rtt now ia b := by
        rw [h1]
        exact if_neg (by simp)
      have hlT : (s2.recvAckTail af.largest af.delay rtt now ia b).1.largest_acked_pktid
          = af.largest :=
        (Space.recvAckTail_largest s2 af.largest af.delay rtt now ia b).trans hlarge2
      have hclear2 : ∀ pn ∈ af.pns, Space.slotClear s2 pn := by
        intro pn hpn
        have := Space.ackLoop_clear af.pns
          ({ s with largest_acked_pktid := af.largest }, true, false, 0) pn hpn
        rw [hfold] at this
        exact this
      have hclearT : ∀ pn ∈ af.pns,
          Space.slotClear (s2.recvAckTail af.largest af.delay rtt now ia b).1 pn := by
        intro pn hpn
        exact Space.recvAckTail_slotClear s2 af.largest af.delay rtt now ia b pn
          (hclear2 pn hpn)
      have hstale2 : ¬ af.largest <
          (s2.recvAckTail af.largest af.delay rtt now ia b).1.largest_acked_pktid := by
        rw [hlT]
        exact lt_irrefl _
      have hupdT : ({ (s2.recvAckTail af.largest af.delay rtt now ia b).1 with
          largest_acked_pktid := af.largest } : Space) =
          (s2.recvAckTail af.largest af.delay rtt now ia b).1 :=
        Space.update_largest_self _ af.largest hlT
      have hnoop : af.pns.foldl Space.ackStep
          ({ (s2.recvAckTail af.largest af.delay rtt now ia b).1 with
              largest_acked_pktid := af.largest }, true, false, 0) =
          ({ (s2.recvAckTail af.largest af.delay rtt now ia b).1 with
              largest_acked_pktid := af.largest }, true, false, 0) := by
        refine Space.ackLoop_noop _ _ _ _ _ ?_
        intro pn hpn
        refine Space.slotClear_of_inflight_eq pn (hclearT pn hpn) ?_
        rw [hupdT]
      have h2' : (s2.recvAckTail af.largest af.delay rtt now ia b).1.recv_ack_frame
          af rtt₂ now₂ =
          ((s2.recvAckTail af.largest af.delay rtt now ia b).1, rtt₂, none) := by
        unfold Space.recv_ack_frame
        rw [if_neg hstale2]
        simp only [hnoop]
        rw [hupdT]
        exact if_pos trivial
      rw [h1', h2']
      exact ⟨rfl, rfl⟩

/-- C7: `largest_acked_pktid` is non-decreasing across every
`recv_ack_frame` call; a frame whose `largest` is below the current
`largest_acked_pktid` is dropped as stale without modifying any state (the
call returns the space, the estimator and `none` unchanged), and otherwise
`largest_acked_pktid` moves exactly to `ack.largest`. -/
theorem recv_ack_frame_largest_monotone (s : Space) (af : AckFrame)
    (rtt : Rtt) (now : Nat) :
    s.largest_acked_pktid ≤
      (s.recv_ack_frame af rtt now).1.largest_acked_pktid ∧
    (af.largest < s.largest_acked_pktid →
      s.recv_ack_frame af rtt now = (s, rtt, none)) ∧
    (s.largest_acked_pktid ≤ af.largest →
      (s.recv_ack_frame af rtt now).1.largest_acked_pktid = af.largest) := by
  by_cases hstale : af.largest < s.largest_acked_pktid
  · have h1 : s.recv_ack_frame af rtt now = (s, rtt, none) := by
      unfold Space.recv_ack_frame
      rw [if_pos hstale]
    exact ⟨by rw [h1], fun _ => h1,
      fun hle => absurd hstale (not_lt.mpr hle)⟩
  · rcases hfold : af.pns.foldl Space.ackStep
        ({ s with largest_acked_pktid := af.largest }, true, false, 0)
      with ⟨s2, nn, ia, b⟩
    have h1 : s.recv_ack_frame af rtt now =
        (if nn then (s2, rtt, none)
         else s2.recvAckTail af.largest af.delay rtt now ia b) := by
      unfold Space.recv_ack_frame
      rw [if_neg hstale]
      simp only [hfold]
    have hlarge2 : s2.largest_acked_pktid = af.largest := by
      have := Space.ackLoop_largest af.pns
        ({ s with largest_acked_pktid := af.largest }, true, false, 0)
      rw [hfold] at this
      simpa using this
    have hres : (s.recv_ack_frame af rtt now).1.largest_acked_pktid =
        af.largest := by
      rw [h1]
      cases nn with
      | true => simpa using hlarge2
      | false =>
        have : (if false = true then (s2, rtt, none)
            else s2.recvAckTail af.largest af.delay rtt now ia b) =
            s2.recvAckTail af.largest af.delay rtt now ia b :=
          if_neg (by simp)
        rw [this]
        exact (Space.recvAckTail_largest s2 af.largest af.delay rtt now ia
          b).trans hlarge2
    refine ⟨?_, fun hcontra => absurd hcontra hstale, fun _ => hres⟩
    rw [hres]
    exact Nat.le_of_not_lt hstale

/-- Witness for C7: applying the monotonicity theorem at the scenario-S3
space moves `largest_acked_pktid` to 8, and a stale frame (current largest
already 9) is dropped with no state change. -/
theorem recv_ack_frame_largest_monotone_witness :
    (spaceS3.recv_ack_frame ackS3 exampleRtt 100).1.largest_acked_pktid = 8 ∧
    ({ spaceS3 with largest_acked_pktid := 9 } : Space).recv_ack_frame ackS3
        exampleRtt 100 =
      ({ spaceS3 with largest_acked_pktid := 9 }, exampleRtt, none) := by
  constructor
  · exact ((recv_ack_frame_largest_monotone spaceS3 ackS3 exampleRtt
      100).2.2 (by decide)).trans (by decide)
  · exact (recv_ack_frame_largest_monotone _ ackS3 exampleRtt 100).2.1
      (by decide)

/-- C9 counterexample: in scenario S3 (packets 5,6,7,8 inflight, ACK
`largest=8, first_range=0, ranges=[(0,1),(0,1)]` acknowledging 8, 6, 5),
packet 7 is NOT declared lost — `8 − 7 < PACKET_THRESHOLD`, so the
fast-retransmit drain (`drain_to(largest − PACKET_THRESHOLD)`) does not
reach it — and its `Frame` record does not re-enter the control queue: the
packet remains inflight and the retransmission queue stays empty. -/
theorem fast_retransmit_claim_false :
    ((spaceS3.recv_ack_frame ackS3 exampleRtt 100).1.inflight_packets.get 7 =
      some (some (inflilghtPacket 100 7))) ∧
    (spaceS3.recv_ack_frame ackS3 exampleRtt 100).1.frames = [] := by
  exact ⟨by decide, by decide⟩

/-- C9 (amended): on ACK processing that acknowledges something new, any
inflight packet with `PN + PACKET_THRESHOLD < ack.largest` is removed from
the inflight window (declared lost).  In scenario S3 itself, packet 7 stays
inflight (it has only one newer acknowledged packet) and `loss_time` is
armed to its send time plus the loss delay; a genuinely old packet — number
4 against `largest = 8` — is drained and its `Frame` record re-enters the
control retransmission queue. -/
theorem fast_retransmit_amended (s : Space) (af : AckFrame) (rtt : Rtt)
    (now b pn : Nat)
    (hrun : (s.recv_ack_frame af rtt now).2.2 = some b)
    (hpn : pn + PACKET_THRESHOLD < af.largest) :
    (s.recv_ack_frame af rtt now).1.inflight_packets.get pn = none ∧
    ((spaceS3.recv_ack_frame ackS3 exampleRtt 100).1.inflight_packets.get 7 =
      some (some (inflilghtPacket 100 7))) ∧
    (spaceS3.recv_ack_frame ackS3 exampleRtt 100).1.loss_time =
      some (100 + exampleRtt.loss_delay) ∧
    (spaceOldInflight.recv_ack_frame ackOnly8 exampleRtt 100).1.frames =
      [⟨44, 4⟩] ∧
    (spaceOldInflight.recv_ack_frame ackOnly8
        exampleRtt 100).1.inflight_packets.get 4 = none := by
  refine ⟨?_, by decide, by decide, by decide, by decide⟩
  by_cases hstale : af.largest < s.largest_acked_pktid
  · exfalso
    have h1 : s.recv_ack_frame af rtt now = (s, rtt, none) := by
      unfold Space.recv_ack_frame
      rw [if_pos hstale]
    rw [h1] at hrun
    cases hrun
  · rcases hfold : af.pns.foldl Space.ackStep
        ({ s with largest_acked_pktid := af.largest }, true, false, 0)
      with ⟨s2, nn, ia, bb⟩
    have h1 : s.recv_ack_frame af rtt now =
        (if nn then (s2, rtt, none)
         else s2.recvAckTail af.largest af.delay rtt now ia bb) := by
      unfold Space.recv_ack_frame
      rw [if_neg hstale]
      simp only [hfold]
    cases nn with
    | true =>
      exfalso
      rw [h1] at hrun
      simp at hrun
    | false =>
      have h1' : s.recv_ack_frame af rtt now =
          s2.recvAckTail af.largest af.delay rtt now ia bb := by
        rw [h1]
        exact if_neg (by simp)
      rw [h1']
      exact Space.recvAckTail_lost_removed s2 af.largest af.delay rtt now ia
        bb pn (by omega)

/-- Witness for C9 (amended): packet 4, acknowledged-past by an ACK with
`largest = 8`, is removed from the inflight window. -/
theorem fast_retransmit_amended_witness :
    (spaceOldInflight.recv_ack_frame ackOnly8
        exampleRtt 100).1.inflight_packets.get 4 = none :=
  (fast_retransmit_amended spaceOldInflight ackOnly8 exampleRtt 100 20 4
    (by decide) (by decide)).1

/-- C1 counterexample: after receiving ack-eliciting packets 0, 1, 2 into a
fresh Data space, the sync deadline is armed at 25000 µs (receive instant 0
plus `max_ack_delay`); at `now = 25000` — the deadline reached, an
`Important` entry recorded, neither `new_lost_event` nor
`rcvd_unreached_packet` set — the claim requires `need_send_ack_frame` to
return true, yet it returns false: the source compares
`t > Instant::now()`, true only strictly before the deadline. -/
theorem need_send_ack_frame_claim_false :
    spaceS1.time_to_sync = some 25000 ∧
    spaceS1.new_lost_event = false ∧
    spaceS1.rcvd_unreached_packet = false ∧
    spaceS1.rcvd_packets.items.any (·.isImportant) = true ∧
    spaceS1.reliable = true ∧
    spaceS1.need_send_ack_frame 25000 = false := by
  exact ⟨by decide, by decide, by decide, by decide, by decide, by decide⟩

/-- C1 (amended): for every reliable packet-number space,
`need_send_ack_frame` returns true exactly when `new_lost_event` or
`rcvd_unreached_packet` is set, or when `time_to_sync` is armed and the
current instant is still strictly BEFORE it (`now < t`); no
`Important`-entry condition is checked.  In particular, after receiving
ack-eliciting packets it returns true immediately and until `max_ack_delay`
elapses, not once the delay has passed. -/
theorem need_send_ack_frame_characterization (s : Space) (now : Nat)
    (h : s.reliable = true) :
    s.need_send_ack_frame now =
      (s.new_lost_event || s.rcvd_unreached_packet ||
        (match s.time_to_sync with
         | some t => decide (now < t)
         | none => false)) := by
  unfold Space.need_send_ack_frame
  rw [h]
  cases s.new_lost_event <;> cases s.rcvd_unreached_packet <;>
    cases s.time_to_sync <;> simp

/-- Witness for C1 (amended): in the deadline-armed space at instant 0 the
characterization evaluates on concrete data. -/
theorem need_send_ack_frame_characterization_witness :
    spaceDeadlinePassed.need_send_ack_frame 0 =
      (spaceDeadlinePassed.new_lost_event ||
        spaceDeadlinePassed.rcvd_unreached_packet ||
        (match spaceDeadlinePassed.time_to_sync with
         | some t => decide (0 < t)
         | none => false)) :=
  need_send_ack_frame_characterization spaceDeadlinePassed 0 (by decide)

/-- C4 counterexample: in a fresh reliable space, receive ack-eliciting
packet 0, then ack-eliciting packet 2 with packet 1 missing (scenario S2).
`new_lost_event` is NOT set — the gap check of `receive` skips
`PACKET_THRESHOLD` entries below the new largest before looking for
`NotReceived`, and that window is empty here — and the generated ACK frame
is `largest=2, first_range=0, ranges=[]`, not `ranges=[(0,1)]`: the
`gen_ack_frame` range loop consumes the run boundaries while counting, so
the trailing acknowledged run of packet 0 never becomes a range entry. -/
theorem gap_immediate_ack_claim_false :
    spaceS2.new_lost_event = false ∧
    (spaceS2.gen_ack_frame 1000).map (fun p => p.1) =
      some { largest := 2, delay := 0, first_range := 0, ranges := [] } := by
  exact ⟨by decide, by decide⟩

/-- C4 (amended): after receiving PN 0 and then PN 2 (packet 1 missing),
`new_lost_event` remains false and `rcvd_unreached_packet` remains false,
but `need_send_ack_frame` still returns true immediately — `time_to_sync`
was armed at 25000 µs by packet 0 and `now = 1000` is before it — and the
generated ACK frame has `largest=2, first_range=0, ranges=[]`. -/
theorem gap_immediate_ack_amended :
    spaceS2.new_lost_event = false ∧
    spaceS2.rcvd_unreached_packet = false ∧
    spaceS2.time_to_sync = some 25000 ∧
    spaceS2.need_send_ack_frame 1000 = true ∧
    (spaceS2.gen_ack_frame 1000).map (fun p => p.1) =
      some { largest := 2, delay := 0, first_range := 0, ranges := [] } := by
  exact ⟨by decide, by decide, by decide, by decide, by decide⟩

theorem drop_length_takeWhile {α : Type} (p : α → Bool) (l : List α) :
    l.drop (l.takeWhile p).length = l.dropWhile p := by
  induction l with
  | nil => rfl
  | cons a l ih =>
    by_cases h : p a
    · simp [List.takeWhile_cons, List.dropWhile_cons, h, ih]
    · simp [List.takeWhile_cons, List.dropWhile_cons, h]

theorem into_synced_idem (x : RcvdState) :
    x.into_synced.into_synced = x.into_synced := by
  cases x <;> rfl

theorem writeFrames_space (fs : List CtrlFrame)
    (acc : Space × Nat × List Records × Nat × Bool) :
    (fs.foldl Space.writeFrameStep acc).1 = acc.1 := by
  refine foldl_preserveP (fun a => a.1 = acc.1) _ ?_ fs acc rfl
  intro a f ha
  obtain ⟨s, r, p, n, b⟩ := a
  simpa [Space.writeFrameStep] using ha

theorem into_synced_not_important (x : RcvdState) (t : Nat) :
    x.into_synced ≠ .Important t := by
  cases x <;> simp [RcvdState.into_synced]

theorem into_synced_not_ignored (x : RcvdState) (t : Nat) :
    x.into_synced ≠ .Ignored t := by
  cases x <;> simp [RcvdState.into_synced]

theorem gen_ack_items_map (s : Space) (now : Nat) (af : AckFrame) (s₁ : Space)
    (hgen : s.gen_ack_frame now = some (af, s₁)) :
    s₁.rcvd_packets.items.map RcvdState.into_synced =
      s.rcvd_packets.items.map RcvdState.into_synced ∧
    s₁.rcvd_packets.offset = s.rcvd_packets.offset ∧
    af.largest = s.rcvd_packets.offset + s.rcvd_packets.items.length - 1 := by
  unfold Space.gen_ack_frame at hgen
  by_cases hrel : s.reliable
  on_goal 2 => simp [hrel] at hgen
  by_cases himp : s.rcvd_packets.items.any (·.isImportant)
  on_goal 2 => simp [hrel, himp] at hgen
  cases hlast : s.rcvd_packets.items.getLast? with
  | none => simp [hrel, himp, hlast] at hgen
  | some lastSt =>
    cases hdel : lastSt.delay now with
    | none => simp [hrel, himp, hlast, hdel] at hgen
    | some d =>
      simp only [hrel, himp, hlast, hdel, Bool.not_true, Bool.false_eq_true,
        if_false, Option.some.injEq, Prod.mk.injEq] at hgen
      obtain ⟨haf, hs₁⟩ := hgen
      subst haf
      subst hs₁
      refine ⟨?_, rfl, rfl⟩
      dsimp only
      rw [List.map_reverse, List.map_append, List.map_map]
      have h1 : (s.rcvd_packets.items.reverse.takeWhile
          (fun st => !st.isNotReceived)).map
            (RcvdState.into_synced ∘ RcvdState.into_synced) =
          (s.rcvd_packets.items.reverse.takeWhile
            (fun st => !st.isNotReceived)).map RcvdState.into_synced := by
        refine List.map_congr_left ?_
        intro x _
        exact into_synced_idem x
      rw [h1, ← List.map_append, drop_length_takeWhile,
        List.takeWhile_append_dropWhile, List.map_reverse,
        List.reverse_reverse]

/-- C8: after `try_send` emits an ACK frame (the send succeeded and
`need_send_ack_frame` held), no entry of `rcvd_packets` remains in the
`Important` or `Ignored` state — the record equals the old one promoted
pointwise by `into_synced`, so `Ignored`/`Important` become `Synced` and
`NotReceived` becomes `Unreached` — and `new_lost_event`,
`rcvd_unreached_packet` and `time_to_sync` are reset while
`last_synced_ack_largest` is set to the emitted frame's `largest`. -/
theorem try_send_gap_compactness (s : Space) (now cap : Nat) (s' : Space)
    (pn bytes : Nat)
    (hneed : s.need_send_ack_frame now = true)
    (hsend : s.try_send now cap = some (s', pn, bytes)) :
    (∀ st ∈ s'.rcvd_packets.items,
      (∀ t, st ≠ .Important t) ∧ (∀ t, st ≠ .Ignored t)) ∧
    s'.new_lost_event = false ∧
    s'.rcvd_unreached_packet = false ∧
    s'.time_to_sync = none ∧
    (∃ af s₁, s.gen_ack_frame now = some (af, s₁) ∧
      s'.last_synced_ack_largest = af.largest) ∧
    s'.rcvd_packets.items = s.rcvd_packets.items.map RcvdState.into_synced := by
  unfold Space.try_send at hsend
  cases hgen : s.gen_ack_frame now with
  | none => simp [hneed, hgen] at hsend
  | some p =>
    obtain ⟨af, s₁⟩ := p
    simp only [hneed, hgen, if_true] at hsend
    rw [writeFrames_space] at hsend
    dsimp only at hsend
    split at hsend
    next heq => exact absurd hsend (by simp)
    next pktid infl heq =>
      rw [Option.some.injEq, Prod.mk.injEq, Prod.mk.injEq] at hsend
      obtain ⟨hs', hpn, hb⟩ := hsend
      subst hs'
      refine ⟨?_, ?_, ?_, ?_, ⟨af, s₁, rfl, ?_⟩, ?_⟩
      · intro st hst
        dsimp only at hst
        split at hst
        all_goals
          dsimp only at hst
          rcases List.mem_map.mp hst with ⟨x, _, rfl⟩
          exact ⟨fun t => into_synced_not_important x t,
            fun t => into_synced_not_ignored x t⟩
      · dsimp only
        split <;> rfl
      · dsimp only
        split <;> rfl
      · dsimp only
        split <;> rfl
      · dsimp only
        split <;> rfl
      · dsimp only
        split <;> exact (gen_ack_items_map s now af s₁ hgen).1

/-- Witness for C8: emitting the pending ACK of the ready-to-ack space at
instant 50 leaves its three receive-record entries Synced/Unreached. -/
theorem try_send_gap_compactness_witness :
    spaceReadyToAck.need_send_ack_frame 50 = true ∧
    spaceReadyToAck.try_send 50 1000 = some (spaceReadyToAckSent, 0, 0) ∧
    spaceReadyToAckSent.new_lost_event = false ∧
    spaceReadyToAckSent.rcvd_unreached_packet = false ∧
    spaceReadyToAckSent.time_to_sync = none ∧
    spaceReadyToAckSent.rcvd_packets.items =
      spaceReadyToAck.rcvd_packets.items.map RcvdState.into_synced := by
  have h := try_send_gap_compactness spaceReadyToAck 50 1000
    spaceReadyToAckSent 0 0 (by decide) (by decide)
  exact ⟨by decide, by decide, h.2.1, h.2.2.1, h.2.2.2.1, h.2.2.2.2.2⟩

theorem writeFrames_eq (fs : List CtrlFrame) (x : Space) (rem : Nat)
    (p : List Records) (n : Nat) (b : Bool)
    (hge : (fs.map (·.wire_size)).sum ≤ rem) :
    fs.foldl Space.writeFrameStep (x, rem, p, n, b) =
      (x, rem - (fs.map (·.wire_size)).sum,
        p ++ fs.map Records.Frame,
        n + (fs.map (·.wire_size)).sum,
        b || !fs.isEmpty) := by
  induction fs generalizing rem p n b with
  | nil => simp
  | cons f fs ih =>
    simp only [List.map_cons, List.sum_cons] at hge
    have hf : f.wire_size ≤ rem := le_trans (Nat.le_add_right _ _) hge
    have hstep : Space.writeFrameStep (x, rem, p, n, b) f =
        (x, rem - f.wire_size, p ++ [Records.Frame f],
          n + f.wire_size, true) := by
      show (x, rem - f.wire_size, p ++ [Records.Frame f],
          n + (rem - (rem - f.wire_size)), true) =
        (x, rem - f.wire_size, p ++ [Records.Frame f], n + f.wire_size, true)
      have hr : rem - (rem - f.wire_size) = f.wire_size := by omega
      rw [hr]
    rw [List.foldl_cons, hstep,
      ih (rem - f.wire_size) (p ++ [Records.Frame f]) (n + f.wire_size) true
        (by omega)]
    have h1 : rem - f.wire_size - (fs.map (·.wire_size)).sum =
        rem - (f.wire_size + (fs.map (·.wire_size)).sum) := by omega
    have h2 : n + f.wire_size + (fs.map (·.wire_size)).sum =
        n + (f.wire_size + (fs.map (·.wire_size)).sum) := by omega
    simp [h1, h2]

theorem gen_ack_frames_eq (s : Space) (now : Nat) (af : AckFrame) (s₁ : Space)
    (hgen : s.gen_ack_frame now = some (af, s₁)) : s₁.frames = s.frames := by
  unfold Space.gen_ack_frame at hgen
  by_cases hrel : s.reliable
  on_goal 2 => simp [hrel] at hgen
  by_cases himp : s.rcvd_packets.items.any (·.isImportant)
  on_goal 2 => simp [hrel, himp] at hgen
  cases hlast : s.rcvd_packets.items.getLast? with
  | none => simp [hrel, himp, hlast] at hgen
  | some lastSt =>
    cases hdel : lastSt.delay now with
    | none => simp [hrel, himp, hlast, hdel] at hgen
    | some d =>
      simp only [hrel, himp, hlast, hdel, Bool.not_true, Bool.false_eq_true,
        if_false, Option.some.injEq, Prod.mk.injEq] at hgen
      obtain ⟨haf, hs₁⟩ := hgen
      subst hs₁
      rfl

theorem IndexDeque.push_some {α : Type} {d : IndexDeque α} {v : α}
    {pid : Nat} {d' : IndexDeque α} (h : d.push v = some (pid, d')) :
    d'.items = d.items ++ [v] := by
  unfold IndexDeque.push at h
  split at h
  · rw [Option.some.injEq, Prod.mk.injEq] at h
    rw [← h.2]
  · cases h

/-- C10: in every successful `try_send`, writing an ACK frame contributes
zero to the returned `sent_bytes` — the return value is exactly the summed
wire size of the drained control frames, whether or not an ACK was written —
and the recorded packet's ack-eliciting flag is set only by control frames;
in particular a packet containing only an ACK frame is recorded with
`sent_bytes = 0` and `is_ack_eliciting = false` (the `s.frames = []`
instance).  The capacity hypothesis keeps the modelled buffer from
truncating (`u8`-buffer overflow panics in the source are out of scope). -/
theorem try_send_ack_budget_free (s : Space) (now cap : Nat) (s' : Space)
    (pn bytes : Nat)
    (hcap : (match s.gen_ack_frame now with
             | some q => ackFrameWireSize q.1
             | none => 0) + (s.frames.map (·.wire_size)).sum ≤ cap)
    (hsend : s.try_send now cap = some (s', pn, bytes)) :
    bytes = (s.frames.map (·.wire_size)).sum ∧
    (∃ pre, s'.inflight_packets.items.getLast? =
      some (some
        { send_time := now,
          payload := pre ++ s.frames.map Records.Frame,
          sent_bytes := (s.frames.map (·.wire_size)).sum,
          is_ack_eliciting := !s.frames.isEmpty })) := by
  unfold Space.try_send at hsend
  by_cases hns : s.need_send_ack_frame now
  · cases hgen : s.gen_ack_frame now with
    | none => simp [hns, hgen] at hsend
    | some q =>
      obtain ⟨af, s₁⟩ := q
      simp only [hgen] at hcap
      have hfr : s₁.frames = s.frames := gen_ack_frames_eq s now af s₁ hgen
      simp only [hns, hgen, if_true] at hsend
      rw [writeFrames_eq s₁.frames _ (cap - ackFrameWireSize af)
        [Records.Ack af.largest] 0 false (by rw [hfr]; omega)] at hsend
      dsimp only at hsend
      split at hsend
      next heq => exact absurd hsend (by simp)
      next pktid infl heq =>
        rw [Option.some.injEq, Prod.mk.injEq, Prod.mk.injEq] at hsend
        obtain ⟨hs', hpn, hb⟩ := hsend
        subst hs'
        constructor
        · rw [← hb, ← hfr]
          omega
        · refine ⟨[Records.Ack af.largest], ?_⟩
          have hitems := IndexDeque.push_some heq
          show infl.items.getLast? = _
          rw [hitems, List.getLast?_concat, hfr]
          simp
  · rw [Bool.not_eq_true] at hns
    simp only [hns, Bool.false_eq_true, if_false] at hsend
    rw [writeFrames_eq s.frames _ cap [] 0 false (by omega)] at hsend
    dsimp only at hsend
    split at hsend
    next heq => exact absurd hsend (by simp)
    next pktid infl heq =>
      rw [Option.some.injEq, Prod.mk.injEq, Prod.mk.injEq] at hsend
      obtain ⟨hs', hpn, hb⟩ := hsend
      subst hs'
      constructor
      · omega
      · refine ⟨[], ?_⟩
        have hitems := IndexDeque.push_some heq
        show infl.items.getLast? = _
        rw [hitems, List.getLast?_concat]
        simp

/-- Witness for C10: the ACK-only send of the ready-to-ack space returns
`sent_bytes = 0`. -/
theorem try_send_ack_budget_free_witness :
    (0 : Nat) = (spaceReadyToAck.frames.map (·.wire_size)).sum :=
  (try_send_ack_budget_free spaceReadyToAck 50 1000
    { frames := [],
      inflight_packets := ⟨0, [some ⟨50, [Records.Ack 2], 0, false⟩]⟩,
      disorder_tolerance := 0,
      time_of_last_sent_ack_eliciting_packet := none,
      largest_acked_pktid := 0, loss_time := none,
      rcvd_packets := ⟨0, [.Synced 0, .Unreached, .Synced 10]⟩,
      largest_rcvd_ack_eliciting_pktid := 0, last_synced_ack_largest := 2,
      new_lost_event := false, rcvd_unreached_packet := false,
      time_to_sync := none, max_ack_delay := 25000, transmission := [],
      reliable := true } 0 0 (by decide) (by decide)).1

/-- An ACK frame in an unreliable space always surfaces the same
`PROTOCOL_VIOLATION` error from the frame loop, whatever else the payload
carries. -/
theorem recvFrames_ack_violation (payload : List SpaceFrame) :
    ∀ (s : Space) (rtt : Rtt) (ae : Bool) (now : Nat), s.reliable = false →
      (∃ a, SpaceFrame.ack a ∈ payload) →
      (s.recvFrames rtt ae now payload).2.2.2 =
        some { kind := .ProtocolViolation, frame_type := .Ack,
               reason := "No ACK frame can be received in 0-RTT packets" } := by
  induction payload with
  | nil =>
    rintro s rtt ae now hR ⟨a, ha⟩
    cases ha
  | cons f fs ih =>
    rintro s rtt ae now hR ⟨a, ha⟩
    cases f with
    | padding =>
      have hm : SpaceFrame.ack a ∈ fs := by
        rcases List.mem_cons.mp ha with h | h
        · cases h
        · exact h
      unfold Space.recvFrames
      exact ih s rtt ae now hR ⟨a, hm⟩
    | ack af =>
      unfold Space.recvFrames
      rw [hR]
      rfl
    | close =>
      have hm : SpaceFrame.ack a ∈ fs := by
        rcases List.mem_cons.mp ha with h | h
        · cases h
        · exact h
      unfold Space.recvFrames
      exact ih _ rtt ae now hR ⟨a, hm⟩
    | data d =>
      have hm : SpaceFrame.ack a ∈ fs := by
        rcases List.mem_cons.mp ha with h | h
        · cases h
        · exact h
      unfold Space.recvFrames
      exact ih _ rtt true now hR ⟨a, hm⟩
    | info fr =>
      have hm : SpaceFrame.ack a ∈ fs := by
        rcases List.mem_cons.mp ha with h | h
        · cases h
        · exact h
      unfold Space.recvFrames
      exact ih _ rtt true now hR ⟨a, hm⟩

/-- A 0-RTT-legal prefix keeps the dispatcher fold in the `ok` state. -/
theorem dispatch_ok_prefix (pre : List DataScopeFrame) :
    ∀ acc : Bool × List DispatchEvent,
      (∀ f ∈ pre, f.allowedInZeroRtt = true) →
      ∃ acc', pre.foldl dispatchZeroRttStep (Except.ok acc) = .ok acc' := by
  induction pre with
  | nil => intro acc _; exact ⟨acc, rfl⟩
  | cons f fs ih =>
    intro acc hall
    have hf : f.allowedInZeroRtt = true := hall f (List.mem_cons_self f fs)
    obtain ⟨b, evs⟩ := acc
    rw [List.foldl_cons]
    have hrd : frameReaderZeroRttItem f = .ok (f, f.isAckEliciting) := by
      unfold frameReaderZeroRttItem
      rw [hf]
      rfl
    unfold dispatchZeroRttStep
    rw [hrd]
    exact ih _ (fun g hg => hall g (List.mem_cons_of_mem f hg))

/-- The dispatcher fold keeps the first error it met. -/
theorem dispatch_error_absorb (l : List DataScopeFrame) (e : QuicError) :
    l.foldl dispatchZeroRttStep (.error e) = .error e := by
  induction l with
  | nil => rfl
  | cons f fs ih =>
    rw [List.foldl_cons]
    exact ih

/-- C5: a 0-RTT packet whose payload contains an ACK frame produces a
connection error of kind `PROTOCOL_VIOLATION` carrying the ACK frame type,
in both paths: the reliability space's `receive` (an unreliable space, any
fresh packet number, any payload containing an ACK), and the Data-scope
0-RTT dispatcher (any payload whose frames before the ACK are legal in
0-RTT, per the spec-modelled `FrameReader` packet-type check). -/
theorem zero_rtt_rejects_ack
    (s : Space) (pktid : Nat) (payload : List SpaceFrame)
    (rtt : Rtt) (now : Nat)
    (pre suf : List DataScopeFrame) (af : AckFrame)
    (hR : s.reliable = false)
    (h1 : ¬ pktid < s.rcvd_packets.offset)
    (h2 : (!(match s.rcvd_packets.get pktid with
             | some .NotReceived | some .Unreached => true
             | _ => false) &&
           !(decide (pktid ≥ s.rcvd_packets.offset +
              s.rcvd_packets.items.length))) = false)
    (hmem : ∃ a, SpaceFrame.ack a ∈ payload)
    (hpre : ∀ f ∈ pre, f.allowedInZeroRtt = true) :
    (s.receive pktid payload rtt now).2.2 =
      some { kind := .ProtocolViolation, frame_type := .Ack,
             reason := "No ACK frame can be received in 0-RTT packets" } ∧
    dispatchZeroRttPayload (pre ++ .ack af :: suf) =
      .error { kind := .ProtocolViolation, frame_type := .Ack,
               reason := "frame type cannot appear in 0-RTT packets" } := by
  constructor
  · unfold Space.receive
    rw [if_neg h1, if_neg (by rw [h2]; simp)]
    have herr := recvFrames_ack_violation payload s rtt false now hR hmem
    rcases hrf : s.recvFrames rtt false now payload with ⟨s₂, rest⟩
    obtain ⟨rtt₂, ae₂, err⟩ := rest
    rw [hrf] at herr
    simp only at herr
    simp only [hrf]
    rw [herr]
  · unfold dispatchZeroRttPayload
    rw [List.foldl_append, List.foldl_cons]
    obtain ⟨acc', hacc⟩ := dispatch_ok_prefix pre (false, []) hpre
    rw [hacc]
    have hstep : dispatchZeroRttStep (Except.ok acc') (.ack af) =
        .error { kind := .ProtocolViolation, frame_type := .Ack,
                 reason := "frame type cannot appear in 0-RTT packets" } := by
      obtain ⟨b, evs⟩ := acc'
      rfl
    rw [hstep]
    exact dispatch_error_absorb suf _

/-- Witness for C5: a concrete 0-RTT packet — padding, one stream frame,
then an ACK — is rejected by both the unreliable space and the Data-scope
dispatcher. -/
theorem zero_rtt_rejects_ack_witness :
    (zeroRttSpace.receive 3
        [.padding, .info ⟨9, 4⟩, .ack ⟨7, 0, 0, []⟩] exampleRtt 60).2.2 =
      some { kind := .ProtocolViolation, frame_type := .Ack,
             reason := "No ACK frame can be received in 0-RTT packets" } ∧
    dispatchZeroRttPayload
        [.padding, .stream 5, .ack ⟨7, 0, 0, []⟩, .crypto 1] =
      .error { kind := .ProtocolViolation, frame_type := .Ack,
               reason := "frame type cannot appear in 0-RTT packets" } :=
  zero_rtt_rejects_ack zeroRttSpace 3
    [.padding, .info ⟨9, 4⟩, .ack ⟨7, 0, 0, []⟩] exampleRtt 60
    [.padding, .stream 5] [.crypto 1] ⟨7, 0, 0, []⟩
    (by decide) (by decide) (by decide)
    ⟨⟨7, 0, 0, []⟩, by decide⟩
    (by decide)


/-- C2 counterexample: for the ready client registry and a server parameter
set whose three CID equality checks all hold but whose
`max_udp_payload_size` is 100, `recv_remote_params` nevertheless fails with
a transport-parameter error, so success is NOT equivalent to the CID
checks alone: bound validation runs first and is also fatal. -/
theorem recv_remote_params_claim_false :
    cidChecksPass clientParamsReady (.server serverParamsSmallUdp) = true ∧
    ArcParameters.recv_remote_params (.ok clientParamsReady)
        (.server serverParamsSmallUdp) =
      some (.error (Parameters.paramError
          "max_udp_payload_size from peer must be at least 1200"),
        .error (Parameters.paramError
          "max_udp_payload_size from peer must be at least 1200")) :=
  ⟨rfl, rfl⟩

/-- C2 (amended): once the remote's common parameters pass bound
validation, `recv_remote_params` on a live registry with its CID
requirements registered succeeds if and only if every CID equality check
required for the role holds (client: server `initial_source_connection_id`,
`retry_source_connection_id` and `original_destination_connection_id`
against the registered requirements; server: client
`initial_source_connection_id`); when a check fails the call returns a
transport-parameter error instead. -/
theorem recv_remote_params_cid_auth (p : Parameters) (input : ParsedRemote) (ri ro : ConnectionId)
    (hI : p.requirements.initial_source_connection_id = some ri)
    (hO : p.role = .Client →
      p.requirements.original_destination_connection_id = some ro)
    (hparse : (p.parse_remote_params input).isSome)
    (hvalid : Parameters.validate_remote_common input.common = .ok ()) :
    ((∃ p', ArcParameters.recv_remote_params (.ok p) input =
        some (.ok p', .ok ())) ↔ cidChecksPass p input = true) ∧
    (cidChecksPass p input = false →
      ∃ e, ArcParameters.recv_remote_params (.ok p) input =
        some (.error e, .error e) ∧ e.kind = .TransportParameter) := by
  obtain ⟨prole, pstate, pclient, pserver, prem, preqs⟩ := p
  dsimp only at hI hO hparse
  cases prole with
  | Client =>
    cases input with
    | client pc =>
      exfalso
      unfold Parameters.parse_remote_params at hparse
      simp at hparse
    | server ps =>
      have hO' := hO rfl
      dsimp only [ParsedRemote.common] at hvalid
      have hred : ArcParameters.recv_remote_params
          (.ok ⟨.Client, pstate, pclient, pserver, prem, preqs⟩)
          (.server ps) =
          (match (⟨.Client, Parameters.CLIENT_READY |||
              Parameters.SERVER_READY, pclient, ps, prem, preqs⟩ :
              Parameters).authenticate_cids with
           | none => none
           | some (.error e) => some (.error e, .error e)
           | some (.ok _) =>
             some (.ok (⟨.Client, Parameters.CLIENT_READY |||
               Parameters.SERVER_READY, pclient, ps, prem, preqs⟩ :
               Parameters), .ok ())) := by
        unfold ArcParameters.recv_remote_params Parameters.recv_remote_params
          Parameters.parse_remote_params
        dsimp only
        have hrem : (⟨.Client, Parameters.CLIENT_READY |||
            Parameters.SERVER_READY, pclient, ps, prem, preqs⟩ :
            Parameters).remote = some ps.common := by
          unfold Parameters.remote
          rw [if_pos ⟨rfl, by dsimp only; decide⟩]
        rw [hrem]
        dsimp only [Option.getD]
        rw [hvalid]
        rcases hA : (⟨.Client, Parameters.CLIENT_READY |||
            Parameters.SERVER_READY, pclient, ps, prem, preqs⟩ :
            Parameters).authenticate_cids with _ | R
        · rfl
        · cases R with
          | error e => rfl
          | ok u => rfl
      have hauth : (⟨.Client, Parameters.CLIENT_READY |||
          Parameters.SERVER_READY, pclient, ps, prem, preqs⟩ :
          Parameters).authenticate_cids =
          some (if ps.common.initial_source_connection_id ≠ ri then
            .error (Parameters.paramError
              "Initial Source Connection ID from server mismatch")
          else if ps.retry_source_connection_id ≠
              preqs.retry_source_connection_id then
            .error (Parameters.paramError "Retry Source Connection ID mismatch")
          else if ps.original_destination_connection_id ≠ ro then
            .error (Parameters.paramError
              "Original Destination Connection ID mismatch")
          else .ok ()) := by
        unfold Parameters.authenticate_cids
        dsimp only
        rw [hI, hO']
        by_cases c1 : ps.common.initial_source_connection_id ≠ ri
        · simp [c1]
        · by_cases c2 : ps.retry_source_connection_id ≠
              preqs.retry_source_connection_id
          · simp [c1, c2]
          · by_cases c3 : ps.original_destination_connection_id ≠ ro
            · simp [c1, c2, c3]
            · simp [c1, c2, c3]
      rw [hauth] at hred
      have hcid : cidChecksPass
          ⟨.Client, pstate, pclient, pserver, prem, preqs⟩ (.server ps) =
          (decide (ps.common.initial_source_connection_id = ri) &&
           decide (ps.retry_source_connection_id =
             preqs.retry_source_connection_id) &&
           decide (ps.original_destination_connection_id = ro)) := by
        unfold cidChecksPass
        dsimp only
        rw [hI, hO']
        simp
      by_cases c1 : ps.common.initial_source_connection_id ≠ ri
      · rw [if_pos c1] at hred
        constructor
        · constructor
          · rintro ⟨p', hp'⟩
            rw [hred] at hp'
            simp at hp'
          · intro hc
            rw [hcid] at hc
            simp only [Bool.and_eq_true, decide_eq_true_eq] at hc
            exact absurd hc.1.1 c1
        · intro _
          exact ⟨_, hred, rfl⟩
      · rw [if_neg c1] at hred
        rw [Decidable.not_not] at c1
        by_cases c2 : ps.retry_source_connection_id ≠
            preqs.retry_source_connection_id
        · rw [if_pos c2] at hred
          constructor
          · constructor
            · rintro ⟨p', hp'⟩
              rw [hred] at hp'
              simp at hp'
            · intro hc
              rw [hcid] at hc
              simp only [Bool.and_eq_true, decide_eq_true_eq] at hc
              exact absurd hc.1.2 c2
          · intro _
            exact ⟨_, hred, rfl⟩
        · rw [if_neg c2] at hred
          rw [Decidable.not_not] at c2
          by_cases c3 : ps.original_destination_connection_id ≠ ro
          · rw [if_pos c3] at hred
            constructor
            · constructor
              · rintro ⟨p', hp'⟩
                rw [hred] at hp'
                simp at hp'
              · intro hc
                rw [hcid] at hc
                simp only [Bool.and_eq_true, decide_eq_true_eq] at hc
                exact absurd hc.2 c3
            · intro _
              exact ⟨_, hred, rfl⟩
          · rw [if_neg c3] at hred
            rw [Decidable.not_not] at c3
            constructor
            · constructor
              · intro _
                rw [hcid]
                simp [c1, c2, c3]
              · intro _
                exact ⟨_, hred⟩
            · intro hc
              rw [hcid] at hc
              simp [c1, c2, c3] at hc
  | Server =>
    cases input with
    | server ps =>
      exfalso
      unfold Parameters.parse_remote_params at hparse
      simp at hparse
    | client pc =>
      dsimp only [ParsedRemote.common] at hvalid
      have hred : ArcParameters.recv_remote_params
          (.ok ⟨.Server, pstate, pclient, pserver, prem, preqs⟩)
          (.client pc) =
          (match (⟨.Server, Parameters.CLIENT_READY |||
              Parameters.SERVER_READY, pc, pserver, prem, preqs⟩ :
              Parameters).authenticate_cids with
           | none => none
           | some (.error e) => some (.error e, .error e)
           | some (.ok _) =>
             some (.ok (⟨.Server, Parameters.CLIENT_READY |||
               Parameters.SERVER_READY, pc, pserver, prem, preqs⟩ :
               Parameters), .ok ())) := by
        unfold ArcParameters.recv_remote_params Parameters.recv_remote_params
          Parameters.parse_remote_params
        dsimp only
        have hrem : (⟨.Server, Parameters.CLIENT_READY |||
            Parameters.SERVER_READY, pc, pserver, prem, preqs⟩ :
            Parameters).remote = some pc.common := by
          unfold Parameters.remote
          rw [if_neg (by rintro ⟨h, _⟩; cases h), if_pos ⟨rfl, by dsimp only; decide⟩]
        rw [hrem]
        dsimp only [Option.getD]
        rw [hvalid]
        rcases hA : (⟨.Server, Parameters.CLIENT_READY |||
            Parameters.SERVER_READY, pc, pserver, prem, preqs⟩ :
            Parameters).authenticate_cids with _ | R
        · rfl
        · cases R with
          | error e => rfl
          | ok u => rfl
      have hauth : (⟨.Server, Parameters.CLIENT_READY |||
          Parameters.SERVER_READY, pc, pserver, prem, preqs⟩ :
          Parameters).authenticate_cids =
          some (if pc.common.initial_source_connection_id ≠ ri then
            .error (Parameters.paramError
              "Initial Source Connection ID from client mismatch")
          else .ok ()) := by
        unfold Parameters.authenticate_cids
        dsimp only
        rw [hI]
        by_cases c1 : pc.common.initial_source_connection_id ≠ ri
        · simp [c1]
        · simp [c1]
      rw [hauth] at hred
      have hcid : cidChecksPass
          ⟨.Server, pstate, pclient, pserver, prem, preqs⟩ (.client pc) =
          decide (pc.common.initial_source_connection_id = ri) := by
        unfold cidChecksPass
        dsimp only
        rw [hI]
        simp
      by_cases c1 : pc.common.initial_source_connection_id ≠ ri
      · rw [if_pos c1] at hred
        constructor
        · constructor
          · rintro ⟨p', hp'⟩
            rw [hred] at hp'
            simp at hp'
          · intro hc
            rw [hcid] at hc
            simp only [decide_eq_true_eq] at hc
            exact absurd hc c1
        · intro _
          exact ⟨_, hred, rfl⟩
      · rw [if_neg c1] at hred
        rw [Decidable.not_not] at c1
        constructor
        · constructor
          · intro _
            rw [hcid]
            simp [c1]
          · intro _
            exact ⟨_, hred⟩
        · intro hc
          rw [hcid] at hc
          simp [c1] at hc

/-- Witness for `recv_remote_params_cid_auth`: the ready client registry
accepts the matching server parameters. -/
theorem recv_remote_params_cid_auth_witness :
    cidChecksPass clientParamsReady (.server serverParamsMatching) = true ∧
    ∃ p', ArcParameters.recv_remote_params (.ok clientParamsReady)
        (.server serverParamsMatching) = some (.ok p', .ok ()) := by
  refine ⟨rfl, ?_⟩
  exact (recv_remote_params_cid_auth clientParamsReady
      (.server serverParamsMatching) cidY cidX rfl (fun _ => rfl) rfl
      rfl).1.mpr rfl

theorem validate_violation (rp : CommonParameters)
    (h : violatesBounds rp = true) :
    ∃ e, Parameters.validate_remote_common rp = .error e ∧
      e.kind = .TransportParameter ∧ e.frame_type = .Crypto := by
  unfold violatesBounds at h
  unfold Parameters.validate_remote_common
  dsimp only
  by_cases h1 : rp.max_udp_payload_size < 1200
  · rw [if_pos h1]
    exact ⟨_, rfl, rfl, rfl⟩
  · rw [if_neg h1]
    by_cases h2 : rp.ack_delay_exponent > 20
    · rw [if_pos h2]
      exact ⟨_, rfl, rfl, rfl⟩
    · rw [if_neg h2]
      by_cases h3 : rp.max_ack_delay > 2 ^ 14
      · rw [if_pos h3]
        exact ⟨_, rfl, rfl, rfl⟩
      · rw [if_neg h3]
        by_cases h4 : rp.active_connection_id_limit < 2
        · rw [if_pos h4]
          exact ⟨_, rfl, rfl, rfl⟩
        · rw [if_neg h4]
          by_cases h5 : rp.initial_max_streams_bidi > MAX_STREAMS_LIMIT
          · rw [if_pos h5]
            exact ⟨_, rfl, rfl, rfl⟩
          · rw [if_neg h5]
            by_cases h6 : rp.initial_max_streams_uni > MAX_STREAMS_LIMIT
            · rw [if_pos h6]
              exact ⟨_, rfl, rfl, rfl⟩
            · exfalso
              simp only [Bool.or_eq_true, decide_eq_true_eq] at h
              rcases h with ((((hc | hc) | hc) | hc) | hc) | hc
              exacts [h1 hc, h2 hc, h3 hc, h4 hc, h5 hc, h6 hc]

/-- C3: for every remote parameter set violating any of the six bounds,
`recv_remote_params` on a live registry fails with an error of kind
`TransportParameter` (carried in a CRYPTO-frame context), the registry is
frozen in that error state, `localParams` and `remote` observe `none`
afterwards, and every subsequent `recv_remote_params` fails fast with the
same error. -/
theorem recv_remote_params_bound_violation (p : Parameters) (input : ParsedRemote)
    (hparse : (p.parse_remote_params input).isSome)
    (hviol : violatesBounds input.common = true) :
    ∃ e, ArcParameters.recv_remote_params (.ok p) input =
        some (.error e, .error e) ∧
      e.kind = .TransportParameter ∧ e.frame_type = .Crypto ∧
      ArcParameters.localParams (.error e) = none ∧
      ArcParameters.remote (.error e) = none ∧
      (∀ input₂, ArcParameters.recv_remote_params (.error e) input₂ =
        some (.error e, .error e)) := by
  obtain ⟨e, hv, hk, hf⟩ := validate_violation input.common hviol
  refine ⟨e, ?_, hk, hf, rfl, rfl, fun input₂ => rfl⟩
  obtain ⟨prole, pstate, pclient, pserver, prem, preqs⟩ := p
  cases prole with
  | Client =>
    cases input with
    | client pc =>
      exfalso
      unfold Parameters.parse_remote_params at hparse
      simp at hparse
    | server ps =>
      dsimp only [ParsedRemote.common] at hv
      unfold ArcParameters.recv_remote_params Parameters.recv_remote_params
        Parameters.parse_remote_params
      dsimp only
      have hrem : (⟨.Client, Parameters.CLIENT_READY |||
          Parameters.SERVER_READY, pclient, ps, prem, preqs⟩ :
          Parameters).remote = some ps.common := by
        unfold Parameters.remote
        rw [if_pos ⟨rfl, by dsimp only; decide⟩]
      rw [hrem]
      dsimp only [Option.getD]
      rw [hv]
  | Server =>
    cases input with
    | server ps =>
      exfalso
      unfold Parameters.parse_remote_params at hparse
      simp at hparse
    | client pc =>
      dsimp only [ParsedRemote.common] at hv
      unfold ArcParameters.recv_remote_params Parameters.recv_remote_params
        Parameters.parse_remote_params
      dsimp only
      have hrem : (⟨.Server, Parameters.CLIENT_READY |||
          Parameters.SERVER_READY, pc, pserver, prem, preqs⟩ :
          Parameters).remote = some pc.common := by
        unfold Parameters.remote
        rw [if_neg (by rintro ⟨h, _⟩; cases h),
          if_pos ⟨rfl, by dsimp only; decide⟩]
      rw [hrem]
      dsimp only [Option.getD]
      rw [hv]

/-- Witness for `recv_remote_params_bound_violation`: the ready client
registry rejects the server parameters with `max_udp_payload_size = 100`
and freezes in the error state. -/
theorem recv_remote_params_bound_violation_witness :
    violatesBounds (ParsedRemote.server serverParamsSmallUdp).common
        = true ∧
    ∃ e, ArcParameters.recv_remote_params (.ok clientParamsReady)
        (.server serverParamsSmallUdp) = some (.error e, .error e) ∧
      e.kind = .TransportParameter ∧ e.frame_type = .Crypto ∧
      ArcParameters.localParams (.error e) = none ∧
      ArcParameters.remote (.error e) = none ∧
      (∀ input₂, ArcParameters.recv_remote_params (.error e) input₂ =
        some (.error e, .error e)) :=
  ⟨rfl, recv_remote_params_bound_violation clientParamsReady
    (.server serverParamsSmallUdp) rfl rfl⟩

